import Mathlib

/-!
Verification development for the BilibiliSponsorBlock server's voting and
category-consensus engine (`vote` / `categoryVote` in the routes source) and
the distributed lock helper (`acquireLock` in `service/redis/redisLock.ts`).

The TypeScript source is shallowly embedded as pure Lean functions:
  * the two logical stores (public segment/vote store, private identity
    store) become lists of row structures inside `Stores`;
  * each awaited database statement becomes a pure list operation, preceded
    by an error-injection check (`failAt`) modelling a rejected promise at
    that call site;
  * JavaScript number arithmetic on vote counts is embedded as `Int`
    (all involved quantities are integers in the source);
  * external collaborators (hashing, VIP lookups, ban checks, the video
    duration API, the redis lock backend) are oracles in `Env`.
Fire-and-forget side effects that the source explicitly does not await and
whose failures it swallows (`checkVideoDuration(...).catch`,
`QueryCacher.clearSegmentCache`) do not affect any replicated table of this
model and are omitted.
-/

/-- Single-quote character, used to reproduce message strings verbatim. -/
def squote : String := (Char.ofNat 39).toString

/-- `ActionType` enumeration from `types/segments.model.ts`. -/
inductive ActionType where
  | Skip
  | Mute
  | Chapter
  | Full
  | Poi
deriving DecidableEq, Repr

/-- String value of an `ActionType` (the enum values in the source). -/
def actionTypeStr : ActionType → String
  | .Skip => "skip"
  | .Mute => "mute"
  | .Chapter => "chapter"
  | .Full => "full"
  | .Poi => "poi"

/-- A row of the public `sponsorTimes` table (fields used by the vote path). -/
structure SegmentRow where
  uuid : String
  videoID : String
  service : String
  category : String
  actionType : ActionType
  votes : Int
  locked : Int
  hidden : Int
  shadowHidden : Int
  userID : String
  videoDuration : Int
  timeSubmitted : Int
deriving DecidableEq, Repr

/-- A row of the private `votes` table. -/
structure VoteRow where
  uuid : String
  userID : String
  hashedIP : String
  type : Int
  normalUserID : String
  originalType : Int
deriving DecidableEq, Repr

/-- A row of the `warnings` table. -/
structure WarningRow where
  userID : String
  issueTime : Int
  enabled : Int
  wtype : Int
  reason : String
deriving DecidableEq, Repr

/-- A row of the public `categoryVotes` aggregate table. -/
structure CatAggRow where
  uuid : String
  category : String
  votes : Int
deriving DecidableEq, Repr

/-- A row of the private `categoryVotes` per-user table. -/
structure PrivCatRow where
  uuid : String
  userID : String
  hashedIP : String
  category : String
  timeSubmitted : Int
deriving DecidableEq, Repr

/-- A row of the `lockCategories` table. -/
structure LockCatRow where
  videoID : String
  service : String
  category : String
  actionType : ActionType
deriving DecidableEq, Repr

/-- The two logical datastores consumed by the vote pipeline. -/
structure Stores where
  sponsorTimes : List SegmentRow
  warnings : List WarningRow
  lockCategories : List LockCatRow
  catVotes : List CatAggRow
  votes : List VoteRow
  privCatVotes : List PrivCatRow
deriving DecidableEq, Repr

/-- Database call sites whose awaited promise may reject. -/
inductive DbSite where
  | segmentRead
  | warningsRead
  | lockCategoriesRead
  | votesRowRead
  | repGateRead
  | ipGateRead
  | voteRowWrite
  | votesUpdate
  | unhideWrite
  | durationUpdate
  | lockWrite
  | unlockWrite
  | catUserVoteRead
  | catSegmentRead
  | catLockRead
  | catNextRead
  | catCountRead
  | catCreditWrite
  | catDebitWrite
  | catPrivWrite
  | catCurrentRead
  | catSubmissionRead
  | catSeedWrite
  | catFlipWrite
deriving DecidableEq, Repr

/-- An uncaught rejection: either an injected database failure, or the
TypeError raised by reading a property of `undefined`. -/
inductive VErr where
  | dbFail (site : DbSite)
  | npe
deriving DecidableEq, Repr

/-- The `{status, message?, json?}` value resolved by `vote`.
`jsonErr` records whether the structured error payload is attached. -/
structure Resp where
  status : Int
  message : Option String := none
  jsonErr : Bool := false
deriving DecidableEq, Repr

/-- External collaborators of the vote pipeline. -/
structure Env where
  hash : String → String
  isVIP : String → Bool
  isTempVIP : String → String → Bool
  checkBan : String → String → Bool
  now : Int
  lockOk : Bool
  apiDuration : Option Int

/-- Process configuration fields read by the vote pipeline. -/
structure Config where
  minUserIDLength : Nat
  maxNumberOfActiveWarnings : Nat
  hoursAfterWarningExpires : Int
  globalSalt : String
  categoryList : List String
  categorySupport : String → Option (List ActionType)

/-- JavaScript string truthiness of an optional string parameter. -/
def jsStrTruthy : Option String → Bool
  | none => false
  | some s => !(s == "")

/-- JavaScript falsiness of the numeric `type` parameter (`!type`):
true for `undefined` and for `0`. -/
def typeFalsy : Option Int → Bool
  | none => true
  | some t => t == 0

/-- `SELECT * from "sponsorTimes" WHERE "UUID" = ?` (first row). -/
def findSegment (st : Stores) (uuid : String) : Option SegmentRow :=
  st.sponsorTimes.find? (fun s => s.uuid == uuid)

/-- `SELECT "type" FROM "votes" WHERE "userID" = ? AND "UUID" = ?` (first row). -/
def findVoteRow (st : Stores) (userID uuid : String) : Option VoteRow :=
  st.votes.find? (fun r => r.userID == userID && r.uuid == uuid)

/-- The active-warning query: standard type, enabled, issued after the
expiry cutoff, in table order. -/
def activeWarnings (cfg : Config) (ws : List WarningRow) (nonAnon : String)
    (now : Int) : List WarningRow :=
  ws.filter (fun w => w.userID == nonAnon
    && decide (now - cfg.hoursAfterWarningExpires * 3600000 < w.issueTime)
    && w.enabled == 1 && w.wtype == 0)

/-- The warning rejection message, embedding the first returned reason. -/
def warnMessage (reason : String) : String :=
  "Vote rejected due to a tip from a moderator. This means that we noticed you were making some common mistakes that are not malicious, and we just want to clarify the rules. "
    ++ "Could you please send a message in Discord or Matrix so we can further help you?"
    ++ (if 0 < reason.length then " Tip message: " ++ squote ++ reason ++ squote else "")

/-- Message of the dead-segment upvote rejection. -/
def deadUpvoteMsg : String :=
  "Not allowed to upvote segment with too many downvotes unless you are VIP."

/-- `lockCategories` row matching the segment (video, service, category,
actionType), used by the numeric-vote lock check. -/
def lockRowExists (st : Stores) (seg : SegmentRow) : Bool :=
  st.lockCategories.any (fun l => l.videoID == seg.videoID
    && l.service == seg.service && l.category == seg.category
    && l.actionType == seg.actionType)

/-- `lockCategories` row matching (video, service, category), used by the
category vote path (no actionType filter there). -/
def lockRowExistsCat (st : Stores) (videoID service category : String) : Bool :=
  st.lockCategories.any (fun l => l.videoID == videoID
    && l.service == service && l.category == category)

/-- The lock check outcome (`finalResponse.blockVote`): for non-VIPs whose
vote is not a plain upvote, or targets a dead segment, a locked segment or a
matching lock-category record blocks the vote. -/
def blockVoteOf (st : Stores) (seg : SegmentRow) (t : Int) (isVIP : Bool) : Bool :=
  if !isVIP && (!(t == 1) || decide (seg.votes ≤ -2)) then
    !(seg.locked == 0) || lockRowExists st seg
  else false

/-- `incrementAmount` from the requested type: Upvote 1, Downvote and
Malicious -1, Undo 0; anything else is the 400 rejection (`none`). -/
def incrementFor (t : Int) : Option Int :=
  if t == 1 then some 1
  else if t == 0 || t == 30 then some (-1)
  else if t == 20 then some 0
  else none

/-- `oldIncrementAmount` decoded from a stored vote row's `type`, in the
source's branch order. -/
def decodeOld (t : Int) : Int :=
  if t == 1 then 1
  else if t == 0 then -1
  else if t == 2 then -4
  else if t == 20 then 0
  else if decide (t < 0) then t
  else if t == 12 then -500
  else if t == 13 then 500
  else 0

/-- Whether the voter has another counted submission in the segment's
category (the reputation-gate subquery). -/
def repGateOk (st : Stores) (nonAnon category : String) : Bool :=
  st.sponsorTimes.any (fun s => s.userID == nonAnon && s.category == category
    && decide (-2 < s.votes) && s.hidden == 0 && s.shadowHidden == 0)

/-- Whether another user already voted on this segment from the same hashed
IP (the same-IP collusion subquery). -/
def ipCollision (st : Stores) (uuid hashedIP userID : String) : Bool :=
  st.votes.any (fun r => r.uuid == uuid && r.hashedIP == hashedIP
    && !(r.userID == userID))

/-- The `ableToVote` eligibility gate, with the two subquery results passed
in (`rep` for the reputation gate, `ipc` for the collusion check). -/
def ableToVoteModel (isVIP isTempVIP isOwn : Bool) (inc old origType : Int)
    (act : ActionType) (blockVote : Bool) (finalStatus : Int)
    (rep ipc : Bool) : Bool :=
  isVIP || isTempVIP ||
    (!(isOwn && decide (0 < inc) && decide (0 ≤ old))
      && !(origType == 30 && !(act == ActionType.Chapter))
      && !blockVote && finalStatus == 200 && rep && !ipc)

/-- `voteTypes.normal`: requested codes 0, 1 and 20 (computed from the
caller-supplied type before any reassignment). -/
def normalEnum (t : Int) : Bool := t == 0 || t == 1 || t == 20

/-- `ceil(v / 2)` on integers (JavaScript `Math.ceil` of an exact half). -/
def ceilHalf (v : Int) : Int := Int.fdiv (v + 1) 2

/-- `select votes from "categoryVotes" where "UUID" = ? and category = ?`. -/
def aggFind (l : List CatAggRow) (uuid category : String) : Option CatAggRow :=
  l.find? (fun r => r.uuid == uuid && r.category == category)

/-- `select count(*) ... from "categoryVotes" where "UUID" = ? and category = ?`. -/
def aggCount (l : List CatAggRow) (uuid category : String) : Nat :=
  (l.filter (fun r => r.uuid == uuid && r.category == category)).length

/-- `update "categoryVotes" set "votes" = "votes" + ? where ...`. -/
def aggAdd (l : List CatAggRow) (uuid category : String) (w : Int) : List CatAggRow :=
  l.map (fun r => if r.uuid == uuid && r.category == category then
    { r with votes := r.votes + w } else r)

/-- `update "categoryVotes" set "votes" = "votes" - ? where ...`. -/
def aggSub (l : List CatAggRow) (uuid category : String) (w : Int) : List CatAggRow :=
  l.map (fun r => if r.uuid == uuid && r.category == category then
    { r with votes := r.votes - w } else r)

/-- The candidate-category credit: increment the aggregate row when the
count query finds one, otherwise insert it at the vote weight. -/
def creditStep (l : List CatAggRow) (uuid category : String) (w : Int) : List CatAggRow :=
  if 0 < aggCount l uuid category then aggAdd l uuid category w
  else l ++ [⟨uuid, category, w⟩]

/-- The grouped private category-vote lookup: count of this user's rows for
their recorded category, with that category (first group of the
`group by category` result). -/
def usersLastVote (rows : List PrivCatRow) (uuid userID : String) :
    Option (Nat × String) :=
  let ms := rows.filter (fun r => r.uuid == uuid && r.userID == userID)
  match ms with
  | [] => none
  | r :: _ => some ((ms.filter (fun x => x.category == r.category)).length, r.category)

/-- Whether the configured category→actionType table allows this category
for this action type (`config.categorySupport[category]?.includes(...)`). -/
def categorySupports (cfg : Config) (category : String) (at_ : ActionType) : Bool :=
  match cfg.categorySupport category with
  | some l => l.contains at_
  | none => false

/-- The 400 message for a category/actionType mismatch. -/
def catTypeMsg (category : String) (at_ : ActionType) : String :=
  "Not allowed to change to " ++ category ++ " when for segment of type "
    ++ actionTypeStr at_

/-- The 400 message for an unknown category. -/
def catMissingMsg : String := "Category doesn" ++ squote ++ "t exist."

/-- Votes of a segment row as stored, by UUID (first row). -/
def segVotes (st : Stores) (uuid : String) : Option Int :=
  (findSegment st uuid).map (fun s => s.votes)

/-- Category of a segment row as stored, by UUID (first row). -/
def segCategory (st : Stores) (uuid : String) : Option String :=
  (findSegment st uuid).map (fun s => s.category)

/-- Stored `type` of a private vote row, by (userID, UUID). -/
def voteRowType (st : Stores) (userID uuid : String) : Option Int :=
  (findVoteRow st userID uuid).map (fun r => r.type)

/-- `updateSegmentVideoDuration`: re-reads the row and overwrites
`videoDuration` when the external API reports a changed positive duration
(`APIDuration > 0 && |segmentDuration - APIDuration| > 2`). -/
def durationApply (env : Env) (st : Stores) (uuid : String) : Stores :=
  match env.apiDuration with
  | none => st
  | some d =>
    match findSegment st uuid with
    | none => st
    | some s0 =>
      if decide (0 < d) && (decide (2 < s0.videoDuration - d) || decide (2 < d - s0.videoDuration)) then
        { st with sponsorTimes := st.sponsorTimes.map (fun s =>
            if s.uuid == uuid then { s with videoDuration := d } else s) }
      else st

/-- Shallow embedding of `categoryVote` from the vote route source.
Returns the resolved (or rejected) response together with the resulting
store state. `finalStatus` is `finalResponse.finalStatus` from the caller. -/
def categoryVoteModel (env : Env) (cfg : Config) (failAt : Option DbSite)
    (st : Stores) (uuid userID : String) (isVIP isTempVIP isOwn : Bool)
    (category hashedIP : String) (finalStatus : Int) : Except VErr Resp × Stores :=
  if failAt == some .catUserVoteRead then (.error (.dbFail .catUserVoteRead), st) else
  let ulv := usersLastVote st.privCatVotes uuid userID
  -- double vote on the same category: ignore
  if (ulv.map (fun p => p.2)) == some category then (.ok ⟨finalStatus, none, false⟩, st) else
  if failAt == some .catSegmentRead then (.error (.dbFail .catSegmentRead), st) else
  match findSegment st uuid with
  | none => (.error .npe, st) -- reading .actionType of undefined throws
  | some seg =>
    if !(categorySupports cfg category seg.actionType) || seg.actionType == .Full then
      (.ok ⟨400, some (catTypeMsg category seg.actionType), false⟩, st)
    else if !(cfg.categoryList.contains category) then
      (.ok ⟨400, some catMissingMsg, false⟩, st)
    else if failAt == some .catLockRead then (.error (.dbFail .catLockRead), st)
    else if lockRowExistsCat st seg.videoID seg.service category && !isVIP then
      (.ok ⟨200, none, false⟩, st)
    else if !isVIP && seg.locked == 1 then (.ok ⟨200, none, false⟩, st)
    else if failAt == some .catNextRead then (.error (.dbFail .catNextRead), st)
    else
      let nextInfo := aggFind st.catVotes uuid category
      let w : Int := if isVIP || isTempVIP then 500 else 1
      -- ban status checks handled by vote() (caller function)
      let able := finalStatus == 200
      if able then
        if failAt == some .catCountRead then (.error (.dbFail .catCountRead), st) else
        if failAt == some .catCreditWrite then (.error (.dbFail .catCreditWrite), st) else
        let stA := { st with catVotes := creditStep st.catVotes uuid category w }
        let hasPrior := match ulv with | some (n, _) => 0 < n | none => false
        let prevCat := (ulv.map (fun p => p.2)).getD ""
        if hasPrior && failAt == some .catDebitWrite then (.error (.dbFail .catDebitWrite), stA) else
        let stB := if hasPrior then { stA with catVotes := aggSub stA.catVotes uuid prevCat w } else stA
        if failAt == some .catPrivWrite then (.error (.dbFail .catPrivWrite), stB) else
        let stC := if hasPrior then
            { stB with privCatVotes := stB.privCatVotes.map (fun r =>
                if r.userID == userID && r.uuid == uuid then
                  { r with category := category, timeSubmitted := env.now, hashedIP := hashedIP }
                else r) }
          else
            { stB with privCatVotes := stB.privCatVotes ++ [⟨uuid, userID, hashedIP, category, env.now⟩] }
        if failAt == some .catCurrentRead then (.error (.dbFail .catCurrentRead), stC) else
        let curInfo := aggFind stC.catVotes uuid seg.category
        if failAt == some .catSubmissionRead then (.error (.dbFail .catSubmissionRead), stC) else
        let sub := findSegment stC uuid
        let startV : Int := if (match sub with | some s => env.isVIP s.userID | none => false) then 10000 else 1
        let curCount : Int := (curInfo.map (fun r => r.votes)).getD startV
        if curInfo.isNone && sub.isSome && failAt == some .catSeedWrite then
          (.error (.dbFail .catSeedWrite), stC) else
        let seedPriv : PrivCatRow :=
          ⟨uuid, (sub.map (fun s => s.userID)).getD "", "unknown", seg.category,
            (sub.map (fun s => s.timeSubmitted)).getD 0⟩
        let stD := if curInfo.isNone && sub.isSome then
            { stC with
              catVotes := stC.catVotes ++ [⟨uuid, seg.category, curCount⟩],
              privCatVotes := stC.privCatVotes ++ [seedPriv] }
          else stC
        let nextCount : Int := ((nextInfo.map (fun r => r.votes)).getD 0) + w
        let flip := isVIP || isTempVIP || isOwn ||
          (match sub with
            | some s => decide (max (ceilHalf s.votes) 2 ≤ nextCount - curCount)
            | none => false)
        if flip && failAt == some .catFlipWrite then (.error (.dbFail .catFlipWrite), stD) else
        let stE := if flip then
            { stD with sponsorTimes := stD.sponsorTimes.map (fun s =>
                if s.uuid == uuid then { s with category := category } else s) }
          else stD
        (.ok ⟨finalStatus, none, false⟩, stE)
      else (.ok ⟨finalStatus, none, false⟩, st)

/-- The privilege amplification of `(type, incrementAmount)`: when the
caller is VIP, temp-VIP or the submitter and the increment is negative,
both become `-(votes + 2 - oldIncrementAmount)`. -/
def ampType (priv : Bool) (t inc0 v old : Int) : Int × Int :=
  if priv && decide (inc0 < 0) then (-(v + 2 - old), -(v + 2 - old)) else (t, inc0)

/-- The malicious cap: when the (possibly reassigned) type equals the
Malicious code 30, both components become `-(min (votes + 2 - old) 5)`. -/
def malCap (p : Int × Int) (v old : Int) : Int × Int :=
  if p.1 == 30 then (-(min (v + 2 - old) 5), -(min (v + 2 - old) 5)) else p

/-- Shallow embedding of the `try` block of the numeric vote pipeline:
old-increment decoding, privilege amplification, the malicious cap, the
`ableToVote` gate with its short-circuited subqueries, and the persistence
writes. An `.error` result is caught by the caller (the `catch` branch). -/
def tryBody (env : Env) (failAt : Option DbSite) (st : Stores)
    (uuid nonAnon userID hashedIP : String) (seg : SegmentRow)
    (isVIP isTempVIP isOwn : Bool) (t : Int) (blockVote : Bool)
    (finalStatus : Int) : Except VErr Resp × Stores :=
  if failAt == some .votesRowRead then (.error (.dbFail .votesRowRead), st) else
  let votesRow := findVoteRow st userID uuid
  match incrementFor t with
  | none => (.ok ⟨400, none, false⟩, st) -- unrecognised type: unlock and return
  | some inc0 =>
    let old := (votesRow.map (fun r => decodeOld r.type)).getD 0
    let p2 := malCap (ampType (isVIP || isTempVIP || isOwn) t inc0 seg.votes old)
      seg.votes old
    let typ := p2.1
    let inc := p2.2
    let rep := repGateOk st nonAnon seg.category
    -- the two gate subqueries run only when the earlier conjuncts hold
    let needRep := !(isVIP || isTempVIP)
      && !(isOwn && decide (0 < inc) && decide (0 ≤ old))
      && !(t == 30 && !(seg.actionType == ActionType.Chapter))
      && !blockVote && finalStatus == 200
    if needRep && failAt == some .repGateRead then (.error (.dbFail .repGateRead), st) else
    if needRep && rep && failAt == some .ipGateRead then (.error (.dbFail .ipGateRead), st) else
    let able := ableToVoteModel isVIP isTempVIP isOwn inc old t seg.actionType
      blockVote finalStatus rep (ipCollision st uuid hashedIP userID)
    if able then
      if failAt == some .voteRowWrite then (.error (.dbFail .voteRowWrite), st) else
      let st1 := { st with votes :=
        match votesRow with
        | some _ => st.votes.map (fun r =>
            if r.userID == userID && r.uuid == uuid then
              { r with type := typ, originalType := t } else r)
        | none => st.votes ++ [⟨uuid, userID, hashedIP, typ, nonAnon, t⟩] }
      if failAt == some .votesUpdate then (.error (.dbFail .votesUpdate), st1) else
      let st2 := { st1 with sponsorTimes := st1.sponsorTimes.map (fun s =>
          if s.uuid == uuid then { s with votes := s.votes + (inc - old) } else s) }
      if isTempVIP && decide (0 < inc) && normalEnum t && failAt == some .unhideWrite then
        (.error (.dbFail .unhideWrite), st2) else
      let st3 := if isTempVIP && decide (0 < inc) && normalEnum t then
          { st2 with sponsorTimes := st2.sponsorTimes.map (fun s =>
              if s.uuid == uuid then { s with hidden := 0 } else s) }
        else st2
      if isVIP && decide (0 < inc) && normalEnum t then
        if failAt == some .durationUpdate then (.error (.dbFail .durationUpdate), st3) else
        let st4 := durationApply env st3 uuid
        if failAt == some .lockWrite then (.error (.dbFail .lockWrite), st4) else
        let st5 := { st4 with sponsorTimes := st4.sponsorTimes.map (fun s =>
            if s.uuid == uuid then { s with locked := 1, hidden := 0, shadowHidden := 0 } else s) }
        (.ok ⟨finalStatus, none, false⟩, st5)
      else if isVIP && decide (inc ≤ 0) && normalEnum t then
        if failAt == some .unlockWrite then (.error (.dbFail .unlockWrite), st3) else
        let st5 := { st3 with sponsorTimes := st3.sponsorTimes.map (fun s =>
            if s.uuid == uuid then { s with locked := 0 } else s) }
        (.ok ⟨finalStatus, none, false⟩, st5)
      else (.ok ⟨finalStatus, none, false⟩, st3)
    else (.ok ⟨finalStatus, none, false⟩, st)

/-- The outcome of a `vote` call: the resolved (or rejected) response, the
resulting store state, whether the distributed lock was acquired, and
whether its `unlock` function was invoked. -/
structure VoteOutcome where
  res : Except VErr Resp
  stores : Stores
  lockAcquired : Bool
  lockReleased : Bool
deriving Repr

/-- Stage of `vote` handling a recognised-or-not numeric vote type: the
lock-category check, the dead-segment gate, and the `try`/`catch` around the
persistence pipeline. The third component records whether `lock.unlock()`
was invoked. -/
def voteNumeric (env : Env) (failAt : Option DbSite) (st : Stores)
    (uuid nonAnon userID hashedIP : String) (seg : SegmentRow)
    (isVIP isTempVIP isOwn : Bool) (t : Int) :
    Except VErr Resp × Stores × Bool :=
  -- the lock-category subquery runs only when the check applies
  -- and the segment itself is not locked
  if !isVIP && (!(t == 1) || decide (seg.votes ≤ -2)) && seg.locked == 0
      && failAt == some .lockCategoriesRead then
    (.error (.dbFail .lockCategoriesRead), st, false)
  else
    let bv := blockVoteOf st seg t isVIP
    let dead := decide (seg.votes ≤ -2) && !(seg.actionType == ActionType.Full)
      && !(isVIP || isTempVIP || isOwn)
    if dead && t == 1 then (.ok ⟨403, some deadUpvoteMsg, false⟩, st, true)
    else if dead && t == 0 then (.ok ⟨200, none, false⟩, st, true)
    else
      match tryBody env failAt st uuid nonAnon userID hashedIP seg
        isVIP isTempVIP isOwn t bv 200 with
      | (.ok r, st2) => (.ok r, st2, true)
      -- catch: log, unlock, 500 with the generic error payload
      | (.error _, st2) => (.ok ⟨500, none, true⟩, st2, true)

/-- Stage of `vote` under the acquired lock: segment load, trust and ban
resolution, the type 10/11 rejection, warning and ban checks, category-vote
delegation (not awaited, so the unlock always precedes its settlement), and
the numeric pipeline. The third component records whether `lock.unlock()`
was invoked. -/
def voteLocked (env : Env) (cfg : Config) (failAt : Option DbSite) (st : Stores)
    (uuid nonAnon userID hashedIP : String) (type : Option Int)
    (category : Option String) : Except VErr Resp × Stores × Bool :=
  if failAt == some .segmentRead then (.error (.dbFail .segmentRead), st, false)
  else match findSegment st uuid with
  -- segment does not exist
  | none => (.ok ⟨404, none, false⟩, st, true)
  | some seg =>
    let isTempVIP := env.isTempVIP nonAnon seg.videoID
    let isVIP := env.isVIP nonAnon
    let isBanned := env.checkBan nonAnon hashedIP
    let isOwn := nonAnon == seg.userID
    -- disallow vote types 10/11
    if type == some 10 || type == some 11 then (.ok ⟨400, none, false⟩, st, true)
    else if failAt == some .warningsRead then (.error (.dbFail .warningsRead), st, false)
    else
      let warns := activeWarnings cfg st.warnings nonAnon env.now
      if cfg.maxNumberOfActiveWarnings ≤ warns.length then
        match warns with
        -- warnings[0] is undefined: reading .length throws after the unlock
        | [] => (.error .npe, st, true)
        | w :: _ => (.ok ⟨403, some (warnMessage w.reason), false⟩, st, true)
      -- banned: return after the warning checks, silently
      else if isBanned then (.ok ⟨200, none, false⟩, st, true)
      -- no type but has category: categoryVote (not awaited; unlock runs first)
      else if typeFalsy type && jsStrTruthy category then
        let r := categoryVoteModel env cfg failAt st uuid nonAnon isVIP isTempVIP isOwn
          (category.getD "") hashedIP 200
        (r.1, r.2, true)
      else
        match type with
        | none => (.ok ⟨400, none, false⟩, st, true) -- unreachable: caught earlier
        | some t =>
          voteNumeric env failAt st uuid nonAnon userID hashedIP seg isVIP isTempVIP isOwn t

/-- Shallow embedding of `vote` from the vote route source. `type` is the
parsed numeric vote type (absent when the query parameter is missing) and
`category` the raw category parameter. -/
def vote (env : Env) (cfg : Config) (failAt : Option DbSite) (st : Stores)
    (ip uuid paramUserID : String) (type : Option Int)
    (category : Option String) : VoteOutcome :=
  -- missing key parameters
  if uuid == "" || paramUserID == "" || !(type.isSome || jsStrTruthy category) then
    ⟨.ok ⟨400, none, false⟩, st, false, false⟩
  -- ignore this vote, invalid
  else if paramUserID.length < cfg.minUserIDLength then
    ⟨.ok ⟨200, none, false⟩, st, false, false⟩
  else
    let nonAnon := env.hash paramUserID
    let userID := env.hash (paramUserID ++ uuid)
    let hashedIP := env.hash (ip ++ cfg.globalSalt)
    if !env.lockOk then
      ⟨.ok ⟨429, some "Vote already in progress", false⟩, st, false, false⟩
    else
      let r := voteLocked env cfg failAt st uuid nonAnon userID hashedIP type category
      ⟨r.1, r.2.1, true, r.2.2⟩

/-- Result of `acquireLock`: either held, carrying the unlock closure
(modelled as the transformation applied to the backend DEL outcome),
or not held. -/
inductive AcquiredLockM where
  | held (unlock : Except String Unit → Except String Unit)
  | notHeld

/-- Shallow embedding of `acquireLock` from `redisLock.ts`: `enabled` is
`config.redis?.enabled`, `setNX` the outcome of the `SET key "1" PX t NX`
call (`.ok true` set, `.ok false` key already present, `.error` thrown). -/
def acquireLockModel (enabled : Bool) (setNX : Except String Bool) : AcquiredLockM :=
  if !enabled then .held (fun _ => .ok ())
  else
    match setNX with
    | .ok true => .held (fun delRes => match delRes with
        | .ok _ => .ok ()
        | .error _ => .ok ()) -- del(key).catch(err => Logger.error(err))
    | .ok false => .notHeld
    | .error _ => .held (fun _ => .ok ()) -- fallback to allowing

/-- The `status` field of an acquired-lock value. -/
def lockStatus : AcquiredLockM → Bool
  | .held _ => true
  | .notHeld => false

/-- The unlock closure of an acquired-lock value (identity-on-success for
the not-held case, which carries none in the source). -/
def unlockOf : AcquiredLockM → (Except String Unit → Except String Unit)
  | .held u => u
  | .notHeld => fun _ => .ok ()


/-- Standard hash oracle for concrete instances. -/
def hashStd : String → String := fun s => "h" ++ s

/-- Baseline environment for concrete instances. -/
def envStd : Env :=
  ⟨hashStd, fun _ => false, fun _ _ => false, fun _ _ => false, 1000000, true, none⟩

/-- Environment in which every user is banned. -/
def envBan : Env := { envStd with checkBan := fun _ _ => true }

/-- Environment in which the user hashing to "halice" is VIP. -/
def envVip : Env := { envStd with isVIP := fun u => u == "halice" }

/-- Baseline configuration for concrete instances. -/
def cfgStd : Config :=
  ⟨3, 1, 24, "salt", ["sponsor", "intro", "chapter"],
    fun c => if c == "intro" || c == "sponsor" then some [ActionType.Skip]
      else if c == "chapter" then some [ActionType.Chapter] else none⟩

/-- A plain skip segment at three votes, submitted by "bob". -/
def segStd : SegmentRow :=
  ⟨"U1", "V1", "YouTube", "sponsor", .Skip, 3, 0, 0, 0, "hbob", 100, 5⟩

/-- A store holding only `segStd`. -/
def stStd : Stores := ⟨[segStd], [], [], [], [], []⟩



/-- C9: `acquireLock` returns a held lock whenever the lock backend is
disabled in configuration or the set-if-absent call throws (fail-open), and
returns status false exactly when the backend is enabled and the
SET-with-expiry-if-absent call completes without acquiring the key; the
release function is best-effort and never throws. -/
theorem acquireLock_fail_open_spec (enabled : Bool) (setNX : Except String Bool) :
    (lockStatus (acquireLockModel enabled setNX) = false ↔
      enabled = true ∧ setNX = .ok false) ∧
    (∀ delRes : Except String Unit,
      unlockOf (acquireLockModel enabled setNX) delRes = .ok ()) := by
  constructor
  · cases enabled with
    | false => simp [acquireLockModel, lockStatus]
    | true =>
      cases setNX with
      | ok b => cases b <;> simp [acquireLockModel, lockStatus]
      | error e => simp [acquireLockModel, lockStatus]
  · intro d
    cases enabled with
    | false => simp [acquireLockModel, unlockOf]
    | true =>
      cases setNX with
      | ok b =>
        cases b
        · simp [acquireLockModel, unlockOf]
        · cases d <;> simp [acquireLockModel, unlockOf]
      | error e => simp [acquireLockModel, unlockOf]

/-- C7: a banned user (by hashed user id or hashed IP) whose warning count
is below the threshold gets a silent 200: no message, no persistence
change, the category-vote path and the numeric pipeline never run. -/
theorem vote_banned_silent_drop
    (env : Env) (cfg : Config) (st : Stores) (ip uuid user : String)
    (type : Option Int) (category : Option String) (seg : SegmentRow)
    (huuid : ¬ uuid = "") (huser : ¬ user = "")
    (hparam : (type.isSome || jsStrTruthy category) = true)
    (hlen : ¬ user.length < cfg.minUserIDLength)
    (hlock : env.lockOk = true)
    (hseg : findSegment st uuid = some seg)
    (h10 : ¬ type = some 10) (h11 : ¬ type = some 11)
    (hwarn : (activeWarnings cfg st.warnings (env.hash user) env.now).length
      < cfg.maxNumberOfActiveWarnings)
    (hban : env.checkBan (env.hash user) (env.hash (ip ++ cfg.globalSalt)) = true) :
    vote env cfg none st ip uuid user type category =
      ⟨.ok ⟨200, none, false⟩, st, true, true⟩ := by
  have hw : ¬ (cfg.maxNumberOfActiveWarnings ≤
      (activeWarnings cfg st.warnings (env.hash user) env.now).length) :=
    Nat.not_le.mpr hwarn
  simp [vote, voteLocked, hseg, huuid, huser, hparam, hlen, hlock, h10, h11, hw, hban]

/-- Closed witness for the banned-user theorem at a concrete input. -/
theorem vote_banned_silent_drop_witness :
    vote envBan cfgStd none stStd "1.2.3.4" "U1" "alice" (some 1) none =
      ⟨.ok ⟨200, none, false⟩, stStd, true, true⟩ :=
  vote_banned_silent_drop envBan cfgStd stStd "1.2.3.4" "U1" "alice" (some 1) none
    segStd (by decide) (by decide) (by decide) (by decide) rfl rfl
    (by decide) (by decide) (by decide) rfl


/-- Helper for the lock-release analysis: the numeric stage always reports
the unlock unless the lock-category read fails. -/
theorem voteNumericReleased (env : Env) (failAt : Option DbSite) (st : Stores)
    (uuid nonAnon userID hashedIP : String) (seg : SegmentRow)
    (isVIP isTempVIP isOwn : Bool) (t : Int)
    (h3 : ¬ failAt = some .lockCategoriesRead) :
    (voteNumeric env failAt st uuid nonAnon userID hashedIP seg
      isVIP isTempVIP isOwn t).2.2 = true := by
  simp only [voteNumeric]
  repeat' split
  all_goals simp_all

/-- Helper for the lock-release analysis: the locked stage always reports
the unlock unless one of the three pre-`try` reads fails. -/
theorem voteLockedReleased (env : Env) (cfg : Config) (failAt : Option DbSite)
    (st : Stores) (uuid nonAnon userID hashedIP : String) (type : Option Int)
    (category : Option String)
    (h1 : ¬ failAt = some .segmentRead)
    (h2 : ¬ failAt = some .warningsRead)
    (h3 : ¬ failAt = some .lockCategoriesRead) :
    (voteLocked env cfg failAt st uuid nonAnon userID hashedIP type category).2.2 = true := by
  simp only [voteLocked]
  repeat' split
  all_goals first
    | exact voteNumericReleased env failAt st uuid nonAnon userID hashedIP _ _ _ _ _ h3
    | simp_all

/-- Helper for the lock-release analysis, stated over the whole of `vote`. -/
theorem voteLockDisj (env : Env) (cfg : Config) (failAt : Option DbSite)
    (st : Stores) (ip uuid user : String) (type : Option Int)
    (category : Option String)
    (h1 : ¬ failAt = some .segmentRead)
    (h2 : ¬ failAt = some .warningsRead)
    (h3 : ¬ failAt = some .lockCategoriesRead) :
    (vote env cfg failAt st ip uuid user type category).lockAcquired = false ∨
    (vote env cfg failAt st ip uuid user type category).lockReleased = true := by
  simp only [vote]
  repeat' split
  all_goals first
    | (right ; exact voteLockedReleased env cfg failAt st uuid _ _ _ type category h1 h2 h3)
    | (left ; rfl)

/-- C3 (amended): every execution of `vote` that acquires the per-request
lock invokes the unlock on every return path of the pipeline — the 404,
the 400s, the 403 warning, the 200 banned, the category-vote delegation,
the dead-segment responses, the normal completion, and the catch branch of
the `try` block — provided none of the three awaited reads that sit
between lock acquisition and the `try` block (the segment load, the
warnings query, the lock-category check) throws; an error thrown by one of
those reads propagates without releasing the lock. -/
theorem voteLockReleaseAmended (env : Env) (cfg : Config) (failAt : Option DbSite)
    (st : Stores) (ip uuid user : String) (type : Option Int)
    (category : Option String)
    (h1 : ¬ failAt = some .segmentRead)
    (h2 : ¬ failAt = some .warningsRead)
    (h3 : ¬ failAt = some .lockCategoriesRead)
    (hacq : (vote env cfg failAt st ip uuid user type category).lockAcquired = true) :
    (vote env cfg failAt st ip uuid user type category).lockReleased = true := by
  rcases voteLockDisj env cfg failAt st ip uuid user type category h1 h2 h3 with h | h
  · rw [hacq] at h ; exact absurd h (by simp)
  · exact h

/-- Closed witness for the amended lock-release theorem. -/
theorem voteLockReleaseAmendedWitness :
    (vote envStd cfgStd none stStd "1.2.3.4" "U1" "alice" (some 1) none).lockReleased
      = true :=
  voteLockReleaseAmended envStd cfgStd none stStd "1.2.3.4" "U1" "alice" (some 1) none
    (by decide) (by decide) (by decide) (by decide)

/-- C3 counterexample: when the awaited segment-load statement (which sits
after lock acquisition but outside the `try` block) throws, the lock is
acquired and never released. -/
theorem voteLockLeakCounterexample :
    (vote envStd cfgStd (some .segmentRead) stStd "1.2.3.4" "U1" "alice"
        (some 1) none).lockAcquired = true ∧
    (vote envStd cfgStd (some .segmentRead) stStd "1.2.3.4" "U1" "alice"
        (some 1) none).lockReleased = false := by
  constructor <;> rfl

/-- The resolved response of an outcome (a dummy response if it rejected). -/
def okResp (o : VoteOutcome) : Resp := o.res.toOption.getD ⟨0, none, false⟩

/-- Whether the first list leads the second (character-wise). -/
def leadsWith : List Char → List Char → Bool
  | [], _ => true
  | _ :: _, [] => false
  | a :: as, b :: bs => a == b && leadsWith as bs

/-- Whether the needle occurs somewhere inside the haystack. -/
def subSearch (n : List Char) : List Char → Bool
  | [] => leadsWith n []
  | c :: t => leadsWith n (c :: t) || subSearch n t

/-- Whether `n` occurs as a substring of `h`. -/
def strContains (h n : String) : Bool := subSearch n.data h.data

/-- Configuration requiring two active warnings for the rejection. -/
def cfgWarn : Config := { cfgStd with maxNumberOfActiveWarnings := 2 }

/-- Store with two active standard warnings for "halice": the earlier-issued
one sits first in table order. -/
def stWarn : Stores :=
  ⟨[segStd], [⟨"halice", 900000, 1, 0, "oldtip"⟩, ⟨"halice", 950000, 1, 0, "newtip"⟩],
    [], [], [], []⟩

/-- C4 (amended): when the caller's active standard warnings within the
recency window reach `maxNumberOfActiveWarnings`, `vote` returns 403 with a
message embedding the reason of the first warning row returned by the
warnings query (table row order — the query has no ordering clause, so this
need not be the most recent warning), performs no persistence change, and
does so regardless of ban status: the check precedes the ban check, so a
banned-and-warned user still receives the 403 warning message. -/
theorem voteWarningThresholdAmended
    (env : Env) (cfg : Config) (st : Stores) (ip uuid user : String)
    (type : Option Int) (category : Option String) (seg : SegmentRow)
    (w : WarningRow) (ws : List WarningRow)
    (huuid : ¬ uuid = "") (huser : ¬ user = "")
    (hparam : (type.isSome || jsStrTruthy category) = true)
    (hlen : ¬ user.length < cfg.minUserIDLength)
    (hlock : env.lockOk = true)
    (hseg : findSegment st uuid = some seg)
    (h10 : ¬ type = some 10) (h11 : ¬ type = some 11)
    (hw : activeWarnings cfg st.warnings (env.hash user) env.now = w :: ws)
    (hcount : cfg.maxNumberOfActiveWarnings ≤ (w :: ws).length) :
    vote env cfg none st ip uuid user type category =
      ⟨.ok ⟨403, some (warnMessage w.reason), false⟩, st, true, true⟩ := by
  have hcount2 : cfg.maxNumberOfActiveWarnings ≤ ws.length + 1 := by
    simpa using hcount
  simp [vote, voteLocked, hseg, huuid, huser, hparam, hlen, hlock, h10, h11, hw,
    hcount2]

/-- Closed witness for the amended warning-threshold theorem: a banned and
warned user still receives the 403 with the first returned reason. -/
theorem voteWarningThresholdAmendedWitness :
    vote envBan cfgWarn none stWarn "1.2.3.4" "U1" "alice" (some 1) none =
      ⟨.ok ⟨403, some (warnMessage "oldtip"), false⟩, stWarn, true, true⟩ :=
  voteWarningThresholdAmended envBan cfgWarn stWarn "1.2.3.4" "U1" "alice"
    (some 1) none segStd ⟨"halice", 900000, 1, 0, "oldtip"⟩
    [⟨"halice", 950000, 1, 0, "newtip"⟩]
    (by decide) (by decide) (by decide) (by decide) rfl rfl (by decide) (by decide)
    (by decide) (by decide)

set_option maxRecDepth 8000 in
/-- C4 counterexample: at this input the user has two (the configured
maximum) active standard warnings inside the window, the more recent of
which carries reason "newtip"; the 403 message embeds "oldtip" — the first
row in table order — and does not embed the most recent warning's reason. -/
theorem voteWarningOrderCounterexample :
    activeWarnings cfgWarn stWarn.warnings "halice" envStd.now =
      [⟨"halice", 900000, 1, 0, "oldtip"⟩, ⟨"halice", 950000, 1, 0, "newtip"⟩] ∧
    cfgWarn.maxNumberOfActiveWarnings = 2 ∧
    (okResp (vote envStd cfgWarn none stWarn "1.2.3.4" "U1" "alice"
      (some 1) none)).status = 403 ∧
    strContains ((okResp (vote envStd cfgWarn none stWarn "1.2.3.4" "U1" "alice"
      (some 1) none)).message.getD "") "oldtip" = true ∧
    strContains ((okResp (vote envStd cfgWarn none stWarn "1.2.3.4" "U1" "alice"
      (some 1) none)).message.getD "") "newtip" = false := by
  refine ⟨rfl, rfl, rfl, by decide, by decide⟩

/-- C10: a call with numeric type 0 (the Downvote code) and a non-empty
category is delegated to the category-vote path — the delegation guard
treats type 0 as absent, so the numeric pipeline never runs; and more
generally a call supplying a non-zero numeric type together with a category
is accepted with the category ignored: the outcome equals that of the same
call without a category. -/
theorem voteTypeZeroDelegation
    (env : Env) (cfg : Config) (st : Stores) (ip uuid user c : String)
    (seg : SegmentRow)
    (huuid : ¬ uuid = "") (huser : ¬ user = "") (hc : ¬ c = "")
    (hlen : ¬ user.length < cfg.minUserIDLength)
    (hlock : env.lockOk = true)
    (hseg : findSegment st uuid = some seg)
    (hwarn : (activeWarnings cfg st.warnings (env.hash user) env.now).length
      < cfg.maxNumberOfActiveWarnings)
    (hban : env.checkBan (env.hash user) (env.hash (ip ++ cfg.globalSalt)) = false) :
    (vote env cfg none st ip uuid user (some 0) (some c) =
      ⟨(categoryVoteModel env cfg none st uuid (env.hash user)
          (env.isVIP (env.hash user)) (env.isTempVIP (env.hash user) seg.videoID)
          (env.hash user == seg.userID) c (env.hash (ip ++ cfg.globalSalt)) 200).1,
        (categoryVoteModel env cfg none st uuid (env.hash user)
          (env.isVIP (env.hash user)) (env.isTempVIP (env.hash user) seg.videoID)
          (env.hash user == seg.userID) c (env.hash (ip ++ cfg.globalSalt)) 200).2,
        true, true⟩) ∧
    (∀ (failAt : Option DbSite) (t : Int), ¬ t = 0 → ∀ cat : Option String,
      vote env cfg failAt st ip uuid user (some t) cat =
        vote env cfg failAt st ip uuid user (some t) none) := by
  have hw : ¬ (cfg.maxNumberOfActiveWarnings ≤
      (activeWarnings cfg st.warnings (env.hash user) env.now).length) :=
    Nat.not_le.mpr hwarn
  constructor
  · simp [vote, voteLocked, typeFalsy, jsStrTruthy, hseg, huuid, huser, hc, hlen,
      hlock, hw, hban]
  · intro failAt t ht cat
    simp [vote, voteLocked, typeFalsy, ht]

/-- Closed witness for the delegation theorem at a concrete input. -/
theorem voteTypeZeroDelegationWitness :
    (vote envStd cfgStd none stStd "1.2.3.4" "U1" "alice" (some 0) (some "intro") =
      ⟨(categoryVoteModel envStd cfgStd none stStd "U1" (envStd.hash "alice")
          (envStd.isVIP (envStd.hash "alice"))
          (envStd.isTempVIP (envStd.hash "alice") segStd.videoID)
          (envStd.hash "alice" == segStd.userID) "intro"
          (envStd.hash ("1.2.3.4" ++ cfgStd.globalSalt)) 200).1,
        (categoryVoteModel envStd cfgStd none stStd "U1" (envStd.hash "alice")
          (envStd.isVIP (envStd.hash "alice"))
          (envStd.isTempVIP (envStd.hash "alice") segStd.videoID)
          (envStd.hash "alice" == segStd.userID) "intro"
          (envStd.hash ("1.2.3.4" ++ cfgStd.globalSalt)) 200).2,
        true, true⟩) ∧
    vote envStd cfgStd none stStd "1.2.3.4" "U1" "alice" (some 1) (some "intro") =
      vote envStd cfgStd none stStd "1.2.3.4" "U1" "alice" (some 1) none :=
  have h := voteTypeZeroDelegation envStd cfgStd stStd "1.2.3.4" "U1" "alice" "intro"
    segStd (by decide) (by decide) (by decide) (by decide) rfl rfl (by decide) rfl
  ⟨h.1, h.2 none 1 (by decide) (some "intro")⟩

theorem findUpdSeg (l : List SegmentRow) (u : String) (g : SegmentRow → SegmentRow)
    (hg : ∀ s, (g s).uuid = s.uuid) :
    (l.map (fun s => if s.uuid == u then g s else s)).find? (fun s => s.uuid == u)
      = (l.find? (fun s => s.uuid == u)).map g := by
  induction l with
  | nil => rfl
  | cons a t ih =>
    cases hb : (a.uuid == u) with
    | true =>
      have hgb : ((g a).uuid == u) = true := by rw [hg a] ; exact hb
      simp only [List.map_cons]
      rw [if_pos hb, List.find?_cons_of_pos (p := fun (s : SegmentRow) => s.uuid == u) _ hgb,
        List.find?_cons_of_pos (p := fun (s : SegmentRow) => s.uuid == u) _ hb]
      rfl
    | false =>
      have hb2 : ¬ ((a.uuid == u) = true) := by simp [hb]
      simp only [List.map_cons]
      rw [if_neg hb2, List.find?_cons_of_neg (p := fun (s : SegmentRow) => s.uuid == u) _ hb2,
        List.find?_cons_of_neg (p := fun (s : SegmentRow) => s.uuid == u) _ hb2]
      exact ih

theorem findUpdVote (l : List VoteRow) (uid u : String) (g : VoteRow → VoteRow)
    (hg : ∀ r, (g r).userID = r.userID ∧ (g r).uuid = r.uuid) :
    (l.map (fun r => if r.userID == uid && r.uuid == u then g r else r)).find?
        (fun r => r.userID == uid && r.uuid == u)
      = (l.find? (fun r => r.userID == uid && r.uuid == u)).map g := by
  induction l with
  | nil => rfl
  | cons a t ih =>
    cases hb : (a.userID == uid && a.uuid == u) with
    | true =>
      have hgb : ((g a).userID == uid && (g a).uuid == u) = true := by
        rw [(hg a).1, (hg a).2] ; exact hb
      simp only [List.map_cons]
      rw [if_pos hb,
        List.find?_cons_of_pos (p := fun (r : VoteRow) => r.userID == uid && r.uuid == u) _ hgb,
        List.find?_cons_of_pos (p := fun (r : VoteRow) => r.userID == uid && r.uuid == u) _ hb]
      rfl
    | false =>
      have hb2 : ¬ ((a.userID == uid && a.uuid == u) = true) := by simp [hb]
      simp only [List.map_cons]
      rw [if_neg hb2,
        List.find?_cons_of_neg (p := fun (r : VoteRow) => r.userID == uid && r.uuid == u) _ hb2,
        List.find?_cons_of_neg (p := fun (r : VoteRow) => r.userID == uid && r.uuid == u) _ hb2]
      exact ih

theorem findAppendVote (l : List VoteRow) (uid u : String) (x : VoteRow)
    (hl : l.find? (fun r => r.userID == uid && r.uuid == u) = none)
    (hx : (x.userID == uid && x.uuid == u) = true) :
    (l ++ [x]).find? (fun r => r.userID == uid && r.uuid == u) = some x := by
  induction l with
  | nil => simp [List.find?, hx]
  | cons a t ih =>
    simp only [List.find?] at hl ⊢
    cases hpa : (a.userID == uid && a.uuid == u) with
    | true => rw [hpa] at hl ; simp at hl
    | false =>
      rw [hpa] at hl
      simp only [List.cons_append, List.find?, hpa]
      exact ih hl

theorem segVotes_mapAdd (st : Stores) (u : String) (d : Int) :
    segVotes { st with sponsorTimes := st.sponsorTimes.map (fun s =>
        if s.uuid == u then { s with votes := s.votes + d } else s) } u
      = (segVotes st u).map (fun v => v + d) := by
  have h := findUpdSeg st.sponsorTimes u
    (fun s => { s with votes := s.votes + d }) (fun s => rfl)
  simp only [segVotes, findSegment, h]
  cases st.sponsorTimes.find? (fun s => s.uuid == u) <;> rfl

theorem findVotesMapAny (l : List SegmentRow) (u : String) (f : SegmentRow → SegmentRow)
    (hf : ∀ s, (f s).uuid = s.uuid ∧ (f s).votes = s.votes) :
    ((l.map f).find? (fun s => s.uuid == u)).map (fun s => s.votes)
      = (l.find? (fun s => s.uuid == u)).map (fun s => s.votes) := by
  induction l with
  | nil => rfl
  | cons a t ih =>
    cases hb : (a.uuid == u) with
    | true =>
      have hfb : ((f a).uuid == u) = true := by rw [(hf a).1] ; exact hb
      rw [List.map_cons, List.find?_cons_of_pos (p := fun (s : SegmentRow) => s.uuid == u) _ hfb,
        List.find?_cons_of_pos (p := fun (s : SegmentRow) => s.uuid == u) _ hb]
      simp [(hf a).2]
    | false =>
      have hb2 : ¬ ((a.uuid == u) = true) := by simp [hb]
      have hfb : ¬ (((f a).uuid == u) = true) := by rw [(hf a).1] ; exact hb2
      rw [List.map_cons, List.find?_cons_of_neg (p := fun (s : SegmentRow) => s.uuid == u) _ hfb,
        List.find?_cons_of_neg (p := fun (s : SegmentRow) => s.uuid == u) _ hb2]
      exact ih

theorem segVotes_mapAny (st : Stores) (u : String) (f : SegmentRow → SegmentRow)
    (hf : ∀ s, (f s).uuid = s.uuid ∧ (f s).votes = s.votes) :
    segVotes { st with sponsorTimes := st.sponsorTimes.map f } u = segVotes st u := by
  simp only [segVotes, findSegment]
  exact findVotesMapAny st.sponsorTimes u f hf

theorem segVotes_duration (env : Env) (st : Stores) (u2 u : String) :
    segVotes (durationApply env st u2) u = segVotes st u := by
  unfold durationApply
  split
  · rfl
  · split
    · rfl
    · split
      · exact segVotes_mapAny st u _ (fun s => by by_cases h : (s.uuid == u2) = true <;> simp [h])
      · rfl

theorem ampPrivCollapse (t inc0 v old : Int) (hinc : inc0 < 0) :
    malCap (ampType true t inc0 v old) v old = (-(v + 2 - old), -(v + 2 - old)) := by
  have h1 : ampType true t inc0 v old = (-(v + 2 - old), -(v + 2 - old)) := by
    unfold ampType ; simp [hinc]
  rw [h1]
  unfold malCap
  by_cases h : ((-(v + 2 - old) : Int) == 30) = true
  · rw [if_pos h]
    rw [beq_iff_eq] at h
    have h5 : min (v + 2 - old) 5 = v + 2 - old := by omega
    rw [h5]
  · rw [if_neg h]

theorem votesOfDuration (env : Env) (st : Stores) (u : String) :
    (durationApply env st u).votes = st.votes := by
  unfold durationApply
  repeat' split
  all_goals rfl

theorem voteRowTypeUpdate (st : Stores) (uid u : String) (typ ot : Int) (r : VoteRow)
    (hvr : findVoteRow st uid u = some r) :
    voteRowType { st with votes := st.votes.map (fun r2 =>
        if r2.userID == uid && r2.uuid == u then { r2 with type := typ, originalType := ot }
        else r2) } uid u = some typ := by
  simp only [voteRowType, findVoteRow] at hvr ⊢
  rw [findUpdVote st.votes uid u
    (fun r2 => { r2 with type := typ, originalType := ot }) (fun r2 => ⟨rfl, rfl⟩), hvr]
  rfl

theorem voteRowTypeInsert (st : Stores) (uid u : String) (x : VoteRow)
    (hvr : findVoteRow st uid u = none)
    (hx : (x.userID == uid && x.uuid == u) = true) :
    voteRowType { st with votes := st.votes ++ [x] } uid u = some x.type := by
  simp only [voteRowType, findVoteRow] at hvr ⊢
  rw [findAppendVote st.votes uid u x hvr hx]
  rfl

theorem segVotes_mk (sp : List SegmentRow) (w : List WarningRow)
    (lc : List LockCatRow) (cv : List CatAggRow) (v : List VoteRow)
    (pcv : List PrivCatRow) (u : String) :
    segVotes ⟨sp, w, lc, cv, v, pcv⟩ u
      = (sp.find? (fun s => s.uuid == u)).map (fun s => s.votes) := rfl

theorem voteRowType_mk (sp : List SegmentRow) (w : List WarningRow)
    (lc : List LockCatRow) (cv : List CatAggRow) (v : List VoteRow)
    (pcv : List PrivCatRow) (uid u : String) :
    voteRowType ⟨sp, w, lc, cv, v, pcv⟩ uid u
      = (v.find? (fun r => r.userID == uid && r.uuid == u)).map (fun r => r.type) := rfl

theorem fvLock (l : List SegmentRow) (u u2 : String) :
    ((l.map (fun s => if s.uuid == u2 then
        { s with locked := 1, hidden := 0, shadowHidden := 0 } else s)).find?
      (fun s => s.uuid == u)).map (fun s => s.votes)
    = (l.find? (fun s => s.uuid == u)).map (fun s => s.votes) :=
  findVotesMapAny l u _ (fun s => by by_cases h : (s.uuid == u2) = true <;> simp [h])

theorem fvHidden (l : List SegmentRow) (u u2 : String) :
    ((l.map (fun s => if s.uuid == u2 then { s with hidden := 0 } else s)).find?
      (fun s => s.uuid == u)).map (fun s => s.votes)
    = (l.find? (fun s => s.uuid == u)).map (fun s => s.votes) :=
  findVotesMapAny l u _ (fun s => by by_cases h : (s.uuid == u2) = true <;> simp [h])

theorem fvUnlock (l : List SegmentRow) (u u2 : String) :
    ((l.map (fun s => if s.uuid == u2 then { s with locked := 0 } else s)).find?
      (fun s => s.uuid == u)).map (fun s => s.votes)
    = (l.find? (fun s => s.uuid == u)).map (fun s => s.votes) :=
  findVotesMapAny l u _ (fun s => by by_cases h : (s.uuid == u2) = true <;> simp [h])

theorem fvAdd (l : List SegmentRow) (u : String) (d : Int) :
    ((l.map (fun s => if s.uuid == u then { s with votes := s.votes + d } else s)).find?
      (fun s => s.uuid == u)).map (fun s => s.votes)
    = ((l.find? (fun s => s.uuid == u)).map (fun s => s.votes)).map (fun v => v + d) := by
  rw [findUpdSeg l u (fun s => { s with votes := s.votes + d }) (fun s => rfl)]
  cases l.find? (fun s => s.uuid == u) <;> rfl

theorem fvDuration (env : Env) (st : Stores) (u2 u : String) :
    (((durationApply env st u2).sponsorTimes).find? (fun s => s.uuid == u)).map
      (fun s => s.votes)
    = ((st.sponsorTimes).find? (fun s => s.uuid == u)).map (fun s => s.votes) :=
  segVotes_duration env st u2 u

theorem ftUpd (l : List VoteRow) (uid u : String) (typ ot : Int) (r : VoteRow)
    (hvr : l.find? (fun r2 => r2.userID == uid && r2.uuid == u) = some r) :
    ((l.map (fun r2 => if r2.userID == uid && r2.uuid == u then
        { r2 with type := typ, originalType := ot } else r2)).find?
      (fun r2 => r2.userID == uid && r2.uuid == u)).map (fun r2 => r2.type)
    = some typ := by
  rw [findUpdVote l uid u (fun r2 => { r2 with type := typ, originalType := ot })
    (fun r2 => ⟨rfl, rfl⟩), hvr]
  rfl

theorem ftIns (l : List VoteRow) (uid u : String) (x : VoteRow)
    (hvr : l.find? (fun r2 => r2.userID == uid && r2.uuid == u) = none)
    (hx : (x.userID == uid && x.uuid == u) = true) :
    ((l ++ [x]).find? (fun r2 => r2.userID == uid && r2.uuid == u)).map
      (fun r2 => r2.type) = some x.type := by
  rw [findAppendVote l uid u x hvr hx]
  rfl

theorem tryBodyAbleResult (env : Env) (st : Stores)
    (uuid nonAnon userID hashedIP : String) (seg : SegmentRow)
    (isVIP isTempVIP isOwn : Bool) (t : Int) (bv : Bool) (fs : Int)
    (inc0 : Int) (hinc : incrementFor t = some inc0)
    (hseg : findSegment st uuid = some seg)
    (hable : ableToVoteModel isVIP isTempVIP isOwn
      (malCap (ampType (isVIP || isTempVIP || isOwn) t inc0 seg.votes
        (((findVoteRow st userID uuid).map (fun r => decodeOld r.type)).getD 0))
        seg.votes (((findVoteRow st userID uuid).map (fun r => decodeOld r.type)).getD 0)).2
      (((findVoteRow st userID uuid).map (fun r => decodeOld r.type)).getD 0)
      t seg.actionType bv fs
      (repGateOk st nonAnon seg.category)
      (ipCollision st uuid hashedIP userID) = true) :
    segVotes (tryBody env none st uuid nonAnon userID hashedIP seg
        isVIP isTempVIP isOwn t bv fs).2 uuid =
      some (seg.votes +
        ((malCap (ampType (isVIP || isTempVIP || isOwn) t inc0 seg.votes
          (((findVoteRow st userID uuid).map (fun r => decodeOld r.type)).getD 0))
          seg.votes (((findVoteRow st userID uuid).map (fun r => decodeOld r.type)).getD 0)).2
        - (((findVoteRow st userID uuid).map (fun r => decodeOld r.type)).getD 0))) ∧
    voteRowType (tryBody env none st uuid nonAnon userID hashedIP seg
        isVIP isTempVIP isOwn t bv fs).2 userID uuid =
      some (malCap (ampType (isVIP || isTempVIP || isOwn) t inc0 seg.votes
        (((findVoteRow st userID uuid).map (fun r => decodeOld r.type)).getD 0))
        seg.votes (((findVoteRow st userID uuid).map (fun r => decodeOld r.type)).getD 0)).1 := by
  have hno : ∀ x : DbSite, ((none : Option DbSite) == some x) = false := fun _ => rfl
  have hsegL : st.sponsorTimes.find? (fun s => s.uuid == uuid) = some seg := hseg
  unfold tryBody
  simp only [hinc, hno, Bool.and_false, Bool.false_eq_true, if_false]
  rw [if_pos hable]
  set vold := ((findVoteRow st userID uuid).map (fun r => decodeOld r.type)).getD 0 with hvold
  set p := malCap (ampType (isVIP || isTempVIP || isOwn) t inc0 seg.votes vold)
    seg.votes vold with hp
  rcases hvr : findVoteRow st userID uuid with _ | r
  all_goals have hvrL := hvr
  all_goals simp only [findVoteRow] at hvrL
  all_goals repeat' split
  all_goals try contradiction
  all_goals refine ⟨?_, ?_⟩
  all_goals first
    | (simp only [segVotes_mk, fvLock, fvHidden, fvUnlock, fvDuration, fvAdd,
        hsegL, Option.map_some'] ; done)
    | (simp only [voteRowType_mk, votesOfDuration,
        ftUpd st.votes userID uuid p.1 t r hvrL] ; done)
    | (simp only [voteRowType_mk, votesOfDuration,
        ftIns st.votes userID uuid ⟨uuid, userID, hashedIP, p.1, nonAnon, t⟩
          hvrL (by simp)] ; done)

theorem voteStoresToTry (env : Env) (cfg : Config) (st : Stores)
    (ip uuid user : String) (t : Int) (category : Option String) (seg : SegmentRow)
    (huuid : ¬ uuid = "") (huser : ¬ user = "")
    (hlen : ¬ user.length < cfg.minUserIDLength)
    (hlock : env.lockOk = true)
    (hseg : findSegment st uuid = some seg)
    (h10 : ¬ t = 10) (h11 : ¬ t = 11)
    (hwarn : (activeWarnings cfg st.warnings (env.hash user) env.now).length
      < cfg.maxNumberOfActiveWarnings)
    (hban : env.checkBan (env.hash user) (env.hash (ip ++ cfg.globalSalt)) = false)
    (hdel : (typeFalsy (some t) && jsStrTruthy category) = false)
    (hpriv : (env.isVIP (env.hash user) || env.isTempVIP (env.hash user) seg.videoID
      || (env.hash user == seg.userID)) = true) :
    (vote env cfg none st ip uuid user (some t) category).stores =
      (tryBody env none st uuid (env.hash user) (env.hash (user ++ uuid))
        (env.hash (ip ++ cfg.globalSalt)) seg (env.isVIP (env.hash user))
        (env.isTempVIP (env.hash user) seg.videoID) (env.hash user == seg.userID)
        t (blockVoteOf st seg t (env.isVIP (env.hash user))) 200).2 := by
  have hw : ¬ (cfg.maxNumberOfActiveWarnings ≤
      (activeWarnings cfg st.warnings (env.hash user) env.now).length) :=
    Nat.not_le.mpr hwarn
  have hpriv3 : env.isVIP (env.hash user) = true ∨
      env.isTempVIP (env.hash user) seg.videoID = true ∨
      env.hash user = seg.userID := by
    have h2 := hpriv
    simp only [Bool.or_eq_true, beq_iff_eq] at h2
    tauto
  simp only [vote, voteLocked, voteNumeric, hseg]
  rcases hpriv3 with h | h | h <;>
    simp [huuid, huser, hlen, hlock, h10, h11, hw, hban, hdel, h, blockVoteOf]
  all_goals repeat' split
  all_goals first | rfl | (exfalso ; omega) | (simp_all <;> (exfalso ; omega))

/-- C1: when the caller is VIP, temp-VIP, or the segment's own submitter,
the requested type maps to a negative increment (codes 0 and 30), and the
final eligibility gate passes, the increment is amplified to
`-(currentVotes + 2 - oldIncrementAmount)`; the persisted segment votes
equal exactly -2 and the amplified value is stored as the vote row's type. -/
theorem voteVipDownvoteAmplification
    (env : Env) (cfg : Config) (st : Stores) (ip uuid user : String) (t : Int)
    (category : Option String) (seg : SegmentRow)
    (huuid : ¬ uuid = "") (huser : ¬ user = "")
    (hlen : ¬ user.length < cfg.minUserIDLength)
    (hlock : env.lockOk = true)
    (hseg : findSegment st uuid = some seg)
    (ht : t = 0 ∨ t = 30)
    (hcat : jsStrTruthy category = false)
    (hwarn : (activeWarnings cfg st.warnings (env.hash user) env.now).length
      < cfg.maxNumberOfActiveWarnings)
    (hban : env.checkBan (env.hash user) (env.hash (ip ++ cfg.globalSalt)) = false)
    (hpriv : (env.isVIP (env.hash user) || env.isTempVIP (env.hash user) seg.videoID
      || (env.hash user == seg.userID)) = true)
    (hgate : ableToVoteModel (env.isVIP (env.hash user))
      (env.isTempVIP (env.hash user) seg.videoID) (env.hash user == seg.userID)
      (-(seg.votes + 2 - (((findVoteRow st (env.hash (user ++ uuid)) uuid).map
          (fun r => decodeOld r.type)).getD 0)))
      (((findVoteRow st (env.hash (user ++ uuid)) uuid).map
          (fun r => decodeOld r.type)).getD 0)
      t seg.actionType (blockVoteOf st seg t (env.isVIP (env.hash user))) 200
      (repGateOk st (env.hash user) seg.category)
      (ipCollision st uuid (env.hash (ip ++ cfg.globalSalt))
        (env.hash (user ++ uuid))) = true) :
    segVotes (vote env cfg none st ip uuid user (some t) category).stores uuid
      = some (-2) ∧
    voteRowType (vote env cfg none st ip uuid user (some t) category).stores
      (env.hash (user ++ uuid)) uuid
      = some (-(seg.votes + 2 - (((findVoteRow st (env.hash (user ++ uuid)) uuid).map
          (fun r => decodeOld r.type)).getD 0))) := by
  have hinc : incrementFor t = some (-1) := by rcases ht with rfl | rfl <;> rfl
  have h10 : ¬ t = 10 := by rcases ht with rfl | rfl <;> norm_num
  have h11 : ¬ t = 11 := by rcases ht with rfl | rfl <;> norm_num
  have hdel : (typeFalsy (some t) && jsStrTruthy category) = false := by simp [hcat]
  have hbridge := voteStoresToTry env cfg st ip uuid user t category seg huuid huser
    hlen hlock hseg h10 h11 hwarn hban hdel hpriv
  have hcol : malCap (ampType (env.isVIP (env.hash user)
      || env.isTempVIP (env.hash user) seg.videoID || (env.hash user == seg.userID))
      t (-1) seg.votes (((findVoteRow st (env.hash (user ++ uuid)) uuid).map
        (fun r => decodeOld r.type)).getD 0)) seg.votes
      (((findVoteRow st (env.hash (user ++ uuid)) uuid).map
        (fun r => decodeOld r.type)).getD 0)
      = (-(seg.votes + 2 - (((findVoteRow st (env.hash (user ++ uuid)) uuid).map
          (fun r => decodeOld r.type)).getD 0)),
        -(seg.votes + 2 - (((findVoteRow st (env.hash (user ++ uuid)) uuid).map
          (fun r => decodeOld r.type)).getD 0))) := by
    rw [hpriv]
    exact ampPrivCollapse t (-1) seg.votes _ (by norm_num)
  have hable : ableToVoteModel (env.isVIP (env.hash user))
      (env.isTempVIP (env.hash user) seg.videoID) (env.hash user == seg.userID)
      (malCap (ampType (env.isVIP (env.hash user)
        || env.isTempVIP (env.hash user) seg.videoID || (env.hash user == seg.userID))
        t (-1) seg.votes (((findVoteRow st (env.hash (user ++ uuid)) uuid).map
          (fun r => decodeOld r.type)).getD 0)) seg.votes
        (((findVoteRow st (env.hash (user ++ uuid)) uuid).map
          (fun r => decodeOld r.type)).getD 0)).2
      (((findVoteRow st (env.hash (user ++ uuid)) uuid).map
        (fun r => decodeOld r.type)).getD 0)
      t seg.actionType (blockVoteOf st seg t (env.isVIP (env.hash user))) 200
      (repGateOk st (env.hash user) seg.category)
      (ipCollision st uuid (env.hash (ip ++ cfg.globalSalt))
        (env.hash (user ++ uuid))) = true := by
    rw [hcol]
    exact hgate
  obtain ⟨hA, hB⟩ := tryBodyAbleResult env st uuid (env.hash user)
    (env.hash (user ++ uuid)) (env.hash (ip ++ cfg.globalSalt)) seg
    (env.isVIP (env.hash user)) (env.isTempVIP (env.hash user) seg.videoID)
    (env.hash user == seg.userID) t (blockVoteOf st seg t (env.isVIP (env.hash user)))
    200 (-1) hinc hseg hable
  rw [hcol] at hA hB
  constructor
  · rw [hbridge, hA]
    congr 1
    ring
  · rw [hbridge, hB]

/-- Closed witness: a VIP downvoting a segment at votes = 3 with no prior
vote row leaves votes = -2 and stores -5 as the row type. -/
theorem voteVipDownvoteAmplificationWitness :
    segVotes (vote envVip cfgStd none stStd "1.2.3.4" "U1" "alice"
      (some 0) none).stores "U1" = some (-2) ∧
    voteRowType (vote envVip cfgStd none stStd "1.2.3.4" "U1" "alice"
      (some 0) none).stores (envVip.hash ("alice" ++ "U1")) "U1" = some (-5) := by
  have h := voteVipDownvoteAmplification envVip cfgStd stStd "1.2.3.4" "U1" "alice"
    0 none segStd (by decide) (by decide) (by decide) rfl rfl (Or.inl rfl)
    (by decide) (by decide) rfl (by decide) (by decide)
  exact ⟨h.1, h.2⟩

theorem tryBodyNotAble (env : Env) (st : Stores)
    (uuid nonAnon userID hashedIP : String) (seg : SegmentRow)
    (isVIP isTempVIP isOwn : Bool) (t : Int) (bv : Bool) (fs : Int)
    (inc0 : Int) (hinc : incrementFor t = some inc0)
    (hnot : ableToVoteModel isVIP isTempVIP isOwn
      (malCap (ampType (isVIP || isTempVIP || isOwn) t inc0 seg.votes
        (((findVoteRow st userID uuid).map (fun r => decodeOld r.type)).getD 0))
        seg.votes (((findVoteRow st userID uuid).map (fun r => decodeOld r.type)).getD 0)).2
      (((findVoteRow st userID uuid).map (fun r => decodeOld r.type)).getD 0)
      t seg.actionType bv fs
      (repGateOk st nonAnon seg.category)
      (ipCollision st uuid hashedIP userID) = false) :
    tryBody env none st uuid nonAnon userID hashedIP seg isVIP isTempVIP isOwn t bv fs
      = (.ok ⟨fs, none, false⟩, st) := by
  have hno : ∀ x : DbSite, ((none : Option DbSite) == some x) = false := fun _ => rfl
  unfold tryBody
  simp only [hinc, hno, Bool.and_false, Bool.false_eq_true, if_false]
  rw [if_neg (by simp [hnot])]

/-- C6: a numeric vote by a non-VIP, non-temp-VIP caller fails the final
eligibility gate whenever another per-segment identity already voted on the
same segment from the same hashed IP: nothing is persisted and the call
still returns its base 200 status with no message. -/
theorem voteIpCollusionGuard
    (env : Env) (cfg : Config) (st : Stores) (ip uuid user : String) (t : Int)
    (category : Option String) (seg : SegmentRow)
    (huuid : ¬ uuid = "") (huser : ¬ user = "")
    (hlen : ¬ user.length < cfg.minUserIDLength)
    (hlock : env.lockOk = true)
    (hseg : findSegment st uuid = some seg)
    (ht : t = 0 ∨ t = 1 ∨ t = 20 ∨ t = 30)
    (hcat : jsStrTruthy category = false)
    (hwarn : (activeWarnings cfg st.warnings (env.hash user) env.now).length
      < cfg.maxNumberOfActiveWarnings)
    (hban : env.checkBan (env.hash user) (env.hash (ip ++ cfg.globalSalt)) = false)
    (hvip : env.isVIP (env.hash user) = false)
    (htmp : env.isTempVIP (env.hash user) seg.videoID = false)
    (hdead1 : (decide (seg.votes ≤ -2) && !(seg.actionType == ActionType.Full)
      && !(env.isVIP (env.hash user) || env.isTempVIP (env.hash user) seg.videoID
        || (env.hash user == seg.userID)) && t == 1) = false)
    (hdead2 : (decide (seg.votes ≤ -2) && !(seg.actionType == ActionType.Full)
      && !(env.isVIP (env.hash user) || env.isTempVIP (env.hash user) seg.videoID
        || (env.hash user == seg.userID)) && t == 0) = false)
    (hcol : ipCollision st uuid (env.hash (ip ++ cfg.globalSalt))
      (env.hash (user ++ uuid)) = true) :
    vote env cfg none st ip uuid user (some t) category =
      ⟨.ok ⟨200, none, false⟩, st, true, true⟩ := by
  have hw : ¬ (cfg.maxNumberOfActiveWarnings ≤
      (activeWarnings cfg st.warnings (env.hash user) env.now).length) :=
    Nat.not_le.mpr hwarn
  have h10 : ¬ t = 10 := by rcases ht with rfl | rfl | rfl | rfl <;> norm_num
  have h11 : ¬ t = 11 := by rcases ht with rfl | rfl | rfl | rfl <;> norm_num
  have hinc : incrementFor t = some (if t = 1 then 1 else if t = 20 then 0 else -1) := by
    rcases ht with rfl | rfl | rfl | rfl <;> rfl
  have htry := tryBodyNotAble env st uuid (env.hash user) (env.hash (user ++ uuid))
    (env.hash (ip ++ cfg.globalSalt)) seg (env.isVIP (env.hash user))
    (env.isTempVIP (env.hash user) seg.videoID) (env.hash user == seg.userID) t
    (blockVoteOf st seg t (env.isVIP (env.hash user))) 200
    (if t = 1 then 1 else if t = 20 then 0 else -1) hinc
    (by simp [ableToVoteModel, hvip, htmp, hcol])
  simp at hdead1 hdead2
  simp [vote, voteLocked, voteNumeric, hseg, huuid, huser, hlen, hlock, h10, h11,
    hw, hban, hcat, hdead1, hdead2, htry]
  split
  · rename_i hcond
    obtain ⟨⟨⟨hv2, hfull⟩, ⟨hvf, htf⟩, hown⟩, ht1⟩ := hcond
    exact absurd ht1 (hdead1 hv2 hfull hvf htf hown)
  · exact ⟨rfl, rfl, rfl⟩

/-- A store in which another user already voted on the segment from the
same hashed IP as the upcoming caller. -/
def stColl : Stores :=
  ⟨[segStd], [], [], [], [⟨"U1", "hbobU1", "h1.2.3.4salt", 1, "hbob", 1⟩], []⟩

/-- Closed witness for the IP collusion guard at a concrete input. -/
theorem voteIpCollusionGuardWitness :
    vote envStd cfgStd none stColl "1.2.3.4" "U1" "alice" (some 1) none =
      ⟨.ok ⟨200, none, false⟩, stColl, true, true⟩ :=
  voteIpCollusionGuard envStd cfgStd stColl "1.2.3.4" "U1" "alice" 1 none segStd
    (by decide) (by decide) (by decide) rfl rfl (Or.inr (Or.inl rfl)) rfl
    (by decide) rfl rfl rfl (by decide) (by decide) (by decide)

/-- A chapter segment at votes = -14 plus a counted chapter submission by
the upcoming caller (so the reputation gate passes). -/
def stMal : Stores :=
  ⟨[⟨"U1", "V1", "YouTube", "chapter", .Chapter, -14, 0, 0, 0, "hbob", 100, 5⟩,
    ⟨"U2", "V2", "YouTube", "chapter", .Chapter, 0, 0, 0, 0, "halice", 100, 6⟩],
    [], [], [], [], []⟩

/-- C5: evaluation at the failing input. A non-VIP caller casts the same
Malicious vote (type 30) twice on a chapter segment that starts at
votes = -14. The first call caps the increment at 12 and stores 12 as the
row type, leaving votes = -2; the second call decodes the stored 12 as the
legacy "VIP downvote for completely incorrect" increment -500, computes a
new increment of -5, and applies -5 - (-500) = 495, leaving votes = 493
instead of the unchanged -2 required by the idempotent re-vote property. -/
theorem voteMaliciousRepeatBug :
    segVotes (vote envStd cfgStd none stMal "1.2.3.4" "U1" "alice"
      (some 30) none).stores "U1" = some (-2) ∧
    voteRowType (vote envStd cfgStd none stMal "1.2.3.4" "U1" "alice"
      (some 30) none).stores "haliceU1" "U1" = some 12 ∧
    segVotes (vote envStd cfgStd none
      (vote envStd cfgStd none stMal "1.2.3.4" "U1" "alice" (some 30) none).stores
      "1.2.3.4" "U1" "alice" (some 30) none).stores "U1" = some 493 := by
  refine ⟨rfl, rfl, rfl⟩

theorem fcSetCat (l : List SegmentRow) (u c : String) (seg : SegmentRow)
    (hseg : l.find? (fun s => s.uuid == u) = some seg) :
    ((l.map (fun s => if s.uuid == u then { s with category := c } else s)).find?
      (fun s => s.uuid == u)).map (fun s => s.category) = some c := by
  rw [findUpdSeg l u (fun s => { s with category := c }) (fun s => rfl), hseg]
  rfl

theorem fcSetCatP (l : List SegmentRow) (u c : String) (seg : SegmentRow)
    (hseg : l.find? (fun s => s.uuid == u) = some seg) :
    ((l.map (fun s => if s.uuid = u then { s with category := c } else s)).find?
      (fun s => s.uuid == u)).map (fun s => s.category) = some c := by
  have he : (fun s : SegmentRow => if s.uuid = u then { s with category := c } else s)
      = (fun s : SegmentRow => if s.uuid == u then { s with category := c } else s) := by
    funext s
    by_cases h : s.uuid = u <;> simp [h]
  rw [he]
  exact fcSetCat l u c seg hseg

theorem stMkSponsor (a : List SegmentRow) (b : List WarningRow)
    (c : List LockCatRow) (d : List CatAggRow) (e : List VoteRow)
    (f : List PrivCatRow) : (Stores.mk a b c d e f).sponsorTimes = a := rfl

set_option maxHeartbeats 2000000 in
/-- C2: in an eligible category vote by a caller with no prior vote on the
candidate category, on a supported, unlocked, non-Full segment whose stored
category differs from the candidate, the stored category is replaced by the
candidate if and only if the caller is VIP, temp-VIP or the submitter, or
the candidate aggregate after crediting this vote minus the current
category aggregate (with the lazily seeded starting value when the current
category has no row) is at least max(ceil(votes / 2), 2). -/
theorem categoryVoteFlipThreshold
    (env : Env) (cfg : Config) (st : Stores) (uuid userID : String)
    (isVIP isTempVIP isOwn : Bool) (category hashedIP : String) (seg : SegmentRow)
    (hprior : ∀ n pc, usersLastVote st.privCatVotes uuid userID = some (n, pc) →
      ¬ pc = category)
    (hseg : findSegment st uuid = some seg)
    (hsupp : categorySupports cfg category seg.actionType = true)
    (hfull : ¬ seg.actionType = ActionType.Full)
    (hlist : category ∈ cfg.categoryList)
    (hlocka : (lockRowExistsCat st seg.videoID seg.service category && !isVIP) = false)
    (hlockb : (!isVIP && (seg.locked == 1)) = false)
    (hne : ¬ seg.category = category) :
    (segCategory (categoryVoteModel env cfg none st uuid userID isVIP isTempVIP
        isOwn category hashedIP 200).2 uuid = some category) ↔
    (isVIP = true ∨ isTempVIP = true ∨ isOwn = true ∨
      max (ceilHalf seg.votes) 2 ≤
        ((((aggFind st.catVotes uuid category).map (fun r => r.votes)).getD 0
          + (if isVIP || isTempVIP then 500 else 1))
        - (((aggFind (match usersLastVote st.privCatVotes uuid userID with
              | some (n, pc) => if 0 < n then
                  aggSub (creditStep st.catVotes uuid category
                    (if isVIP || isTempVIP then 500 else 1)) uuid pc
                    (if isVIP || isTempVIP then 500 else 1)
                else creditStep st.catVotes uuid category
                  (if isVIP || isTempVIP then 500 else 1)
              | none => creditStep st.catVotes uuid category
                  (if isVIP || isTempVIP then 500 else 1))
            uuid seg.category).map (fun r => r.votes)).getD
          (if env.isVIP seg.userID then 10000 else 1)))) := by
  have hnoc : ∀ x : DbSite, ((none : Option DbSite) == some x) = false := fun _ => rfl
  have hsegL : List.find? (fun s => s.uuid == uuid) st.sponsorTimes = some seg := hseg
  unfold categoryVoteModel
  rcases husr : usersLastVote st.privCatVotes uuid userID with _ | ⟨n, pc⟩
  · simp [husr, hnoc, hsupp, hfull, hlist, hlocka, hlockb, hseg, findSegment, hsegL]
    try dsimp only
    try simp only [hsegL]
    try dsimp only
    repeat' split
    all_goals first
      | (refine iff_of_true ?_ (by tauto)
         simp only [segCategory, findSegment]
         exact fcSetCatP st.sponsorTimes uuid category seg hsegL)
      | (refine iff_of_false ?_ (by tauto)
         simp only [segCategory, findSegment]
         rw [hsegL]
         simp [hne])
  · have hpc := hprior n pc husr
    simp [husr, hnoc, hpc, hsupp, hfull, hlist, hlocka, hlockb, hseg, findSegment,
      hsegL]
    try dsimp only
    try simp only [hsegL]
    try dsimp only
    repeat' split
    all_goals (try (simp only [stMkSponsor, hsegL] at *))
    all_goals (try (clear hsegL))
    all_goals (have hsegL : List.find? (fun s => s.uuid == uuid) st.sponsorTimes = some seg := hseg)
    all_goals (try (simp only [Bool.and_eq_true, decide_eq_true_eq] at *))
    all_goals first
      | (refine iff_of_true ?_ (by tauto)
         simp only [segCategory, findSegment]
         exact fcSetCatP st.sponsorTimes uuid category seg hsegL)
      | (refine iff_of_false ?_ (by tauto)
         simp only [segCategory, findSegment]
         rw [hsegL]
         simp [hne])

/-- A skip segment at ten votes for the flip-threshold witness. -/
def segFlip : SegmentRow :=
  ⟨"U1", "V1", "YouTube", "sponsor", .Skip, 10, 0, 0, 0, "hbob", 100, 5⟩

/-- Stores with an intro aggregate at 5 and a sponsor aggregate at 1, so
that a one-weight intro vote reaches 6 - 1 = 5 = max(ceil(10 / 2), 2). -/
def stFlip : Stores :=
  ⟨[segFlip], [], [], [⟨"U1", "intro", 5⟩, ⟨"U1", "sponsor", 1⟩], [], []⟩

theorem categoryVoteFlipThresholdWitness :
    segCategory (categoryVoteModel envStd cfgStd none stFlip "U1" "ualice"
      false false false "intro" "hip" 200).2 "U1" = some "intro" :=
  (categoryVoteFlipThreshold envStd cfgStd stFlip "U1" "ualice" false false
      false "intro" "hip" segFlip (fun _ _ h => Option.noConfusion h) rfl rfl
      (by decide) (by decide) rfl rfl (by decide)).mpr (by decide)

theorem findMapPres {α : Type} (l : List α) (p : α → Bool) (f : α → α)
    (hp : ∀ r, p (f r) = p r) :
    (l.map f).find? p = (l.find? p).map f := by
  induction l with
  | nil => rfl
  | cons a t ih =>
    cases hb : p a with
    | true =>
      have hfb : p (f a) = true := by rw [hp a] ; exact hb
      simp only [List.map_cons]
      rw [List.find?_cons_of_pos _ hfb, List.find?_cons_of_pos _ hb]
      rfl
    | false =>
      have hb2 : ¬ (p a = true) := by simp [hb]
      have hf2 : ¬ (p (f a) = true) := by rw [hp a] ; exact hb2
      simp only [List.map_cons]
      rw [List.find?_cons_of_neg _ hf2, List.find?_cons_of_neg _ hb2]
      exact ih

theorem findMapFix {α : Type} (l : List α) (p : α → Bool) (f : α → α)
    (hp : ∀ r, p (f r) = p r) (hf : ∀ r, p r = true → f r = r) :
    (l.map f).find? p = l.find? p := by
  rw [findMapPres l p f hp]
  cases hx : l.find? p with
  | none => rfl
  | some a => simp [hf a (List.find?_some hx)]

theorem findAppendLeft {α : Type} (l1 l2 : List α) (p : α → Bool) (x : α)
    (h : l1.find? p = some x) : (l1 ++ l2).find? p = some x := by
  induction l1 with
  | nil => simp [List.find?] at h
  | cons a t ih =>
    cases hb : p a with
    | true =>
      rw [List.find?_cons_of_pos _ hb] at h
      simp only [List.cons_append]
      rw [List.find?_cons_of_pos _ hb]
      exact h
    | false =>
      have hb2 : ¬ (p a = true) := by simp [hb]
      rw [List.find?_cons_of_neg _ hb2] at h
      simp only [List.cons_append]
      rw [List.find?_cons_of_neg _ hb2]
      exact ih h

theorem findAppendRight {α : Type} (l1 l2 : List α) (p : α → Bool)
    (h : l1.find? p = none) : (l1 ++ l2).find? p = l2.find? p := by
  induction l1 with
  | nil => rfl
  | cons a t ih =>
    cases hb : p a with
    | true =>
      rw [List.find?_cons_of_pos _ hb] at h
      simp at h
    | false =>
      have hb2 : ¬ (p a = true) := by simp [hb]
      rw [List.find?_cons_of_neg _ hb2] at h
      simp only [List.cons_append]
      rw [List.find?_cons_of_neg _ hb2]
      exact ih h

theorem filterConsFind {α : Type} (l : List α) (p : α → Bool) (r : α) (t : List α)
    (h : l.filter p = r :: t) : l.find? p = some r := by
  induction l generalizing t with
  | nil => simp [List.filter] at h
  | cons a t2 ih =>
    cases hb : p a with
    | true =>
      rw [List.filter_cons_of_pos hb] at h
      rw [List.find?_cons_of_pos _ hb]
      exact congrArg some (List.cons.inj h).1
    | false =>
      have hb2 : ¬ (p a = true) := by simp [hb]
      rw [List.filter_cons_of_neg hb2] at h
      rw [List.find?_cons_of_neg _ hb2]
      exact ih _ h

theorem aggCountZero (l : List CatAggRow) (u c : String)
    (h : aggFind l u c = none) : aggCount l u c = 0 := by
  have h2 : l.find? (fun r => r.uuid == u && r.category == c) = none := h
  rw [List.find?_eq_none] at h2
  have h3 : l.filter (fun r => r.uuid == u && r.category == c) = [] := by
    rw [List.filter_eq_nil_iff]
    exact h2
  simp [aggCount, h3]

theorem aggCountPos (l : List CatAggRow) (u c : String) (r : CatAggRow)
    (h : aggFind l u c = some r) : 0 < aggCount l u c := by
  have h2 : l.find? (fun x => x.uuid == u && x.category == c) = some r := h
  have hm : r ∈ l := List.mem_of_find?_eq_some h2
  have hp0 := List.find?_some h2
  have hp : (r.uuid == u && r.category == c) = true := hp0
  have hmem : r ∈ l.filter (fun x => x.uuid == u && x.category == c) :=
    List.mem_filter.mpr ⟨hm, hp⟩
  have := List.length_pos.mpr (List.ne_nil_of_mem hmem)
  simpa [aggCount] using this

theorem aggVotesCredit (l : List CatAggRow) (u c : String) (w : Int) :
    ((aggFind (creditStep l u c w) u c).map (fun r => r.votes))
      = some ((((aggFind l u c).map (fun r => r.votes)).getD 0) + w) := by
  cases hx : aggFind l u c with
  | none =>
    have hx2 : l.find? (fun r => r.uuid == u && r.category == c) = none := hx
    have hz2 : ¬ 0 < aggCount l u c := by
      rw [aggCountZero l u c hx]
      omega
    simp only [creditStep, if_neg hz2, aggFind]
    rw [findAppendRight _ _ _ hx2]
    simp [List.find?]
  | some r =>
    have hx2 : l.find? (fun x => x.uuid == u && x.category == c) = some r := hx
    have hpos : 0 < aggCount l u c := aggCountPos l u c r hx
    have hpr0 := List.find?_some hx2
    have hpr : (r.uuid == u && r.category == c) = true := hpr0
    have hmp := findMapPres l (fun r : CatAggRow => r.uuid == u && r.category == c)
      (fun r => if r.uuid == u && r.category == c then
        { r with votes := r.votes + w } else r)
      (fun r2 => by by_cases h2 : (r2.uuid == u && r2.category == c) = true <;> simp [h2])
    simp only [creditStep, if_pos hpos, aggAdd, aggFind]
    rw [hmp, hx2]
    simp only [Bool.and_eq_true, beq_iff_eq] at hpr
    simp [hpr]

theorem aggFindCreditNe (l : List CatAggRow) (u c c2 : String) (w : Int)
    (hne : ¬ c = c2) :
    aggFind (creditStep l u c2 w) u c = aggFind l u c := by
  by_cases hpos : 0 < aggCount l u c2
  · have hmf := findMapFix l (fun r : CatAggRow => r.uuid == u && r.category == c)
      (fun r => if r.uuid == u && r.category == c2 then
        { r with votes := r.votes + w } else r)
      (fun r2 => by by_cases h2 : (r2.uuid == u && r2.category == c2) = true <;> simp [h2])
      (by
        intro r2 h2
        simp only [Bool.and_eq_true, beq_iff_eq] at h2
        simp [h2.2, hne])
    simp only [creditStep, if_pos hpos, aggAdd, aggFind]
    exact hmf
  · simp only [creditStep, if_neg hpos, aggFind]
    cases hx : l.find? (fun r : CatAggRow => r.uuid == u && r.category == c) with
    | some r => exact findAppendLeft _ _ _ _ hx
    | none =>
      rw [findAppendRight _ _ _ hx]
      have hcc : (c2 == c) = false := beq_eq_false_iff_ne.mpr (Ne.symm hne)
      simp [List.find?, hcc]

theorem aggVotesSub (l : List CatAggRow) (u c : String) (w : Int) :
    ((aggFind (aggSub l u c w) u c).map (fun r => r.votes))
      = ((aggFind l u c).map (fun r => r.votes - w)) := by
  have hmp := findMapPres l (fun r : CatAggRow => r.uuid == u && r.category == c)
    (fun r => if r.uuid == u && r.category == c then
      { r with votes := r.votes - w } else r)
    (fun r2 => by by_cases h2 : (r2.uuid == u && r2.category == c) = true <;> simp [h2])
  simp only [aggSub, aggFind]
  rw [hmp]
  cases hx : l.find? (fun r : CatAggRow => r.uuid == u && r.category == c) with
  | none => rfl
  | some r =>
    have hpr0 := List.find?_some hx
    have hpr : (r.uuid == u && r.category == c) = true := hpr0
    simp only [Bool.and_eq_true, beq_iff_eq] at hpr
    simp [hpr]

theorem aggFindSubNe (l : List CatAggRow) (u c c2 : String) (w : Int)
    (hne : ¬ c = c2) :
    aggFind (aggSub l u c2 w) u c = aggFind l u c := by
  have hmf := findMapFix l (fun r : CatAggRow => r.uuid == u && r.category == c)
    (fun r => if r.uuid == u && r.category == c2 then
      { r with votes := r.votes - w } else r)
    (fun r2 => by by_cases h2 : (r2.uuid == u && r2.category == c2) = true <;> simp [h2])
    (by
      intro r2 h2
      simp only [Bool.and_eq_true, beq_iff_eq] at h2
      simp [h2.2, hne])
  simp only [aggSub, aggFind]
  exact hmf

theorem stMkCat (a : List SegmentRow) (b : List WarningRow)
    (c : List LockCatRow) (d : List CatAggRow) (e : List VoteRow)
    (f : List PrivCatRow) : (Stores.mk a b c d e f).catVotes = d := rfl

theorem stMkPriv (a : List SegmentRow) (b : List WarningRow)
    (c : List LockCatRow) (d : List CatAggRow) (e : List VoteRow)
    (f : List PrivCatRow) : (Stores.mk a b c d e f).privCatVotes = f := rfl

theorem privAfterUpdate (l : List PrivCatRow) (uid u cat ip : String) (ts : Int)
    (r0 : PrivCatRow) (rest : List PrivCatRow)
    (hf : l.filter (fun r => r.uuid == u && r.userID == uid) = r0 :: rest) :
    ((l.map (fun r => if r.userID == uid && r.uuid == u then
        { r with category := cat, timeSubmitted := ts, hashedIP := ip } else r)).find?
      (fun r => r.userID == uid && r.uuid == u)).map (fun r => r.category)
      = some cat := by
  have hpq : (fun r : PrivCatRow => r.userID == uid && r.uuid == u)
      = (fun r : PrivCatRow => r.uuid == u && r.userID == uid) :=
    funext (fun r => Bool.and_comm _ _)
  have hmp := findMapPres l (fun r : PrivCatRow => r.userID == uid && r.uuid == u)
    (fun r => if r.userID == uid && r.uuid == u then
      { r with category := cat, timeSubmitted := ts, hashedIP := ip } else r)
    (fun r2 => by by_cases h2 : (r2.userID == uid && r2.uuid == u) = true <;> simp [h2])
  rw [hmp, hpq, filterConsFind l _ r0 rest hf]
  have hp0 := List.find?_some (filterConsFind l
    (fun r : PrivCatRow => r.uuid == u && r.userID == uid) r0 rest hf)
  have hp1 : (r0.userID == uid && r0.uuid == u) = true := by
    rw [Bool.and_comm]
    exact hp0
  simp only [Bool.and_eq_true, beq_iff_eq] at hp1
  simp [hp1]

theorem findAppendMap {α β : Type} (l l2 : List α) (p : α → Bool) (g : α → β)
    (b : β) (h : ((l.find? p).map g) = some b) :
    (((l ++ l2).find? p).map g) = some b := by
  cases hx : l.find? p with
  | none =>
    rw [hx] at h
    exact absurd h (by simp)
  | some r =>
    rw [findAppendLeft _ _ _ _ hx]
    rw [hx] at h
    exact h

theorem aggVotesAppend (l l2 : List CatAggRow) (u c : String) (v : Int)
    (h : ((aggFind l u c).map (fun r => r.votes)) = some v) :
    ((aggFind (l ++ l2) u c).map (fun r => r.votes)) = some v :=
  findAppendMap l l2 (fun x => x.uuid == u && x.category == c)
    (fun r => r.votes) v h

theorem privCatAppend (l l2 : List PrivCatRow) (uid u cat : String)
    (h : ((l.find? (fun r => r.userID == uid && r.uuid == u)).map
      (fun r => r.category)) = some cat) :
    (((l ++ l2).find? (fun r => r.userID == uid && r.uuid == u)).map
      (fun r => r.category)) = some cat :=
  findAppendMap l l2 (fun r => r.userID == uid && r.uuid == u)
    (fun r => r.category) cat h

theorem privAfterUpdateP (l : List PrivCatRow) (uid u cat ip : String) (ts : Int)
    (r0 : PrivCatRow) (rest : List PrivCatRow)
    (hf : l.filter (fun r => r.uuid == u && r.userID == uid) = r0 :: rest) :
    ((l.map (fun r => if r.userID = uid ∧ r.uuid = u then
        { r with category := cat, timeSubmitted := ts, hashedIP := ip } else r)).find?
      (fun r => r.userID == uid && r.uuid == u)).map (fun r => r.category)
      = some cat := by
  have he : (fun r : PrivCatRow => if r.userID = uid ∧ r.uuid = u then
        { r with category := cat, timeSubmitted := ts, hashedIP := ip } else r)
      = (fun r : PrivCatRow => if r.userID == uid && r.uuid == u then
        { r with category := cat, timeSubmitted := ts, hashedIP := ip } else r) := by
    funext r
    by_cases h : r.userID = uid ∧ r.uuid = u <;> simp [h]
  rw [he]
  exact privAfterUpdate l uid u cat ip ts r0 rest hf

theorem mapExistsOf {α β : Type} (o : Option α) (g : α → β) (b : β)
    (h : o.map g = some b) : ∃ a, o = some a ∧ g a = b := by
  cases o with
  | none => simp at h
  | some x => exact ⟨x, rfl, by simpa using h⟩

set_option maxHeartbeats 4000000 in
/-- C8: an eligible category vote by a caller whose prior recorded category
choice pc has positive weight and differs from the candidate reassigns the
weight: the candidate aggregate is credited by the weight (500 for VIP or
temp-VIP, else 1, with the row created when absent), the prior category pc
is debited by the same weight, and the private per-user row now records the
candidate category. -/
theorem categoryVoteReassignment
    (env : Env) (cfg : Config) (st : Stores) (uuid userID : String)
    (isVIP isTempVIP isOwn : Bool) (category hashedIP : String) (seg : SegmentRow)
    (n : Nat) (pc : String)
    (husr : usersLastVote st.privCatVotes uuid userID = some (n, pc))
    (hn : 0 < n)
    (hpc : ¬ pc = category)
    (hseg : findSegment st uuid = some seg)
    (hsupp : categorySupports cfg category seg.actionType = true)
    (hfull : ¬ seg.actionType = ActionType.Full)
    (hlist : category ∈ cfg.categoryList)
    (hlocka : (lockRowExistsCat st seg.videoID seg.service category && !isVIP) = false)
    (hlockb : (!isVIP && (seg.locked == 1)) = false) :
    (((aggFind (categoryVoteModel env cfg none st uuid userID isVIP isTempVIP isOwn
        category hashedIP 200).2.catVotes uuid category).map (fun r => r.votes))
      = some ((((aggFind st.catVotes uuid category).map (fun r => r.votes)).getD 0)
          + (if isVIP || isTempVIP then 500 else 1)))
    ∧ (∀ v : Int, ((aggFind st.catVotes uuid pc).map (fun r => r.votes)) = some v →
        ((aggFind (categoryVoteModel env cfg none st uuid userID isVIP isTempVIP isOwn
            category hashedIP 200).2.catVotes uuid pc).map (fun r => r.votes))
          = some (v - (if isVIP || isTempVIP then 500 else 1)))
    ∧ (((categoryVoteModel env cfg none st uuid userID isVIP isTempVIP isOwn
          category hashedIP 200).2.privCatVotes.find?
        (fun r => r.userID == userID && r.uuid == uuid)).map (fun r => r.category)
      = some category) := by
  have hnoc : ∀ x : DbSite, ((none : Option DbSite) == some x) = false := fun _ => rfl
  have hsegL : List.find? (fun s => s.uuid == uuid) st.sponsorTimes = some seg := hseg
  have hpcb : (pc == category) = false := by simp [hpc]
  obtain ⟨r0, rest, hflt⟩ : ∃ r0 rest,
      st.privCatVotes.filter (fun r => r.uuid == uuid && r.userID == userID)
        = r0 :: rest := by
    have hms := husr
    simp only [usersLastVote] at hms
    rcases hx : st.privCatVotes.filter (fun r => r.uuid == uuid && r.userID == userID)
      with _ | ⟨a, t⟩
    · rw [hx] at hms
      exact absurd hms (by simp)
    · exact ⟨a, t, hx⟩
  unfold categoryVoteModel
  simp [husr, hnoc, hpcb, hsupp, hfull, hlist, hlocka, hlockb, hseg, findSegment,
    hsegL, hn]
  try dsimp only
  repeat' split
  all_goals (try (simp only [stMkSponsor, stMkCat, stMkPriv, hsegL] at *))
  all_goals (try refine ⟨?_, fun v hv => ?_, ?_⟩)
  all_goals (try (apply mapExistsOf))
  all_goals first
    | (rw [aggFindSubNe _ _ _ _ _ (fun h => hpc h.symm), aggVotesCredit])
    | (apply aggVotesAppend
       rw [aggFindSubNe _ _ _ _ _ (fun h => hpc h.symm), aggVotesCredit])
    | (rw [aggVotesSub, aggFindCreditNe _ _ _ _ _ hpc, hv]
       rfl)
    | (apply aggVotesAppend
       rw [aggVotesSub, aggFindCreditNe _ _ _ _ _ hpc, hv]
       rfl)
    | (exact privAfterUpdateP st.privCatVotes userID uuid category hashedIP env.now
        r0 rest hflt)
    | (apply privCatAppend
       exact privAfterUpdateP st.privCatVotes userID uuid category hashedIP env.now
        r0 rest hflt)

/-- Stores for the reassignment witness: "ubob" has one prior category vote
for "sponsor" on segment "U1", and the sponsor aggregate stands at 3. -/
def stRe : Stores :=
  ⟨[segStd], [], [], [⟨"U1", "sponsor", 3⟩], [], [⟨"U1", "ubob", "hIP", "sponsor", 50⟩]⟩

theorem categoryVoteReassignmentWitness :
    (((aggFind (categoryVoteModel envStd cfgStd none stRe "U1" "ubob" false false
        false "intro" "hip" 200).2.catVotes "U1" "intro").map (fun r => r.votes))
      = some ((((aggFind stRe.catVotes "U1" "intro").map (fun r => r.votes)).getD 0)
          + (if false || false then 500 else 1)))
    ∧ (∀ v : Int, ((aggFind stRe.catVotes "U1" "sponsor").map (fun r => r.votes))
          = some v →
        ((aggFind (categoryVoteModel envStd cfgStd none stRe "U1" "ubob" false false
            false "intro" "hip" 200).2.catVotes "U1" "sponsor").map (fun r => r.votes))
          = some (v - (if false || false then 500 else 1)))
    ∧ (((categoryVoteModel envStd cfgStd none stRe "U1" "ubob" false false
          false "intro" "hip" 200).2.privCatVotes.find?
        (fun r => r.userID == "ubob" && r.uuid == "U1")).map (fun r => r.category)
      = some "intro") :=
  categoryVoteReassignment envStd cfgStd stRe "U1" "ubob" false false false "intro"
    "hip" segStd 1 "sponsor" rfl (by decide) (by decide) rfl rfl (by decide)
    (by decide) rfl rfl
